import Mathlib

/-
Verification of the Gravity N-body simulation core (Gravity.h / Gravity.cpp /
GravityMath.h / GravityMath.cpp) against its natural-language specification.

Modelling conventions:
* C++ `double` is idealised as `ℝ`; float literals such as `0.1f` are read at
  their decimal face value.  `M_PI` is `Real.pi`.
* The C library pseudo-random source (`rand()`, values in `[0, RAND_MAX]`) is
  modelled as an explicit stream `rand : ℕ → ℕ` together with a cursor `rpos`
  inside the engine state; every call of `rand()` reads the stream at the
  cursor and advances it.
* The two ten-slot arrays `bodies` / `initBodies` are modelled as functions
  `ℕ → Body`; every operation of the source touches only indices `0..9`.
* `pd_error` diagnostics are pure logging with no effect on the engine state,
  so rejected setter calls are modelled as the identity.
* The C++ constructor leaves `blackHole` without an initialiser; following the
  spec ("mass 0 means inactive") the initial black hole is taken to be the
  all-zero body.
-/

noncomputable section

namespace GravSim

/-- Two-component vector value (struct Vector of GravityMath.h). -/
structure Vector where
  x : ℝ
  y : ℝ

/-- A point mass: position, velocity, acceleration, mass (struct Body of
Gravity.h).  `Body{}` in C++ value-initialises every field to zero. -/
structure Body where
  x : ℝ
  y : ℝ
  vx : ℝ
  vy : ℝ
  ax : ℝ
  ay : ℝ
  mass : ℝ

/-- The all-zero body, the value of `Body{}`. -/
def Body.zero : Body := ⟨0, 0, 0, 0, 0, 0, 0⟩

/-- `RAND_MAX` of the C library (glibc value, as used in the divisions). -/
def RAND_MAX : ℝ := 2147483647

namespace GravityMath

/-- `calcRadiusFromCenter`: x*x + y*y (the squared radius, per source). -/
def calcRadiusFromCenter (x y : ℝ) : ℝ := x * x + y * y

/-- `calcRelativePositionVector`: (x2 - x1, y2 - y1). -/
def calcRelativePositionVector (x1 y1 x2 y2 : ℝ) : Vector :=
  ⟨x2 - x1, y2 - y1⟩

/-- `calcEuclideanDistance(dx, dy)`: Euclidean norm of a displacement. -/
def calcEuclideanDistance (dx dy : ℝ) : ℝ := Real.sqrt (dx * dx + dy * dy)

/-- `calcEuclideanDistance(x1, y1, x2, y2)` (the two-point overload). -/
def calcEuclideanDistancePts (x1 y1 x2 y2 : ℝ) : ℝ :=
  let v := calcRelativePositionVector x1 y1 x2 y2
  calcEuclideanDistance v.x v.y

/-- `calcPositionDamping`: baseDamping * (1 + distance from origin). -/
def calcPositionDamping (x y base : ℝ) : ℝ :=
  base * (1 + Real.sqrt (x * x + y * y))

/-- `calcSpeed`: velocity magnitude. -/
def calcSpeed (vx vy : ℝ) : ℝ := Real.sqrt (vx * vx + vy * vy)

/-- `calcAcceleration`: acceleration magnitude. -/
def calcAcceleration (ax ay : ℝ) : ℝ := Real.sqrt (ax * ax + ay * ay)

/-- `randomAngle`: rand() / RAND_MAX * 2 * pi, with the raw draw `r` made an
explicit argument. -/
def randomAngle (r : ℕ) : ℝ := (r : ℝ) / RAND_MAX * 2 * Real.pi

/-- `randomRange`: min + rand() / RAND_MAX * (max - min). -/
def randomRange (r : ℕ) (min max : ℝ) : ℝ :=
  min + (r : ℝ) / RAND_MAX * (max - min)

/-- `randomImpulse`: random direction times random strength; `r1` is the draw
for the angle, `r2` the draw for the strength (the call order in the source). -/
def randomImpulse (r1 r2 : ℕ) (minStrength maxStrength : ℝ) : Vector :=
  let angle := randomAngle r1
  let strength := randomRange r2 minStrength maxStrength
  ⟨strength * Real.cos angle, strength * Real.sin angle⟩

/-- `clampSpeed`: pass a zero-speed vector through, otherwise rescale when the
speed lies below `vmin` or above `vmax`. -/
def clampSpeed (vx vy vmin vmax : ℝ) : Vector :=
  let speed := calcSpeed vx vy
  if speed = 0 then ⟨vx, vy⟩
  else if speed < vmin then
    let scale := vmin / speed
    ⟨vx * scale, vy * scale⟩
  else if speed > vmax then
    let scale := vmax / speed
    ⟨vx * scale, vy * scale⟩
  else ⟨vx, vy⟩

end GravityMath

/-- The engine state (class Gravity of Gravity.h), together with the explicit
pseudo-random stream `rand` and its cursor `rpos`. -/
structure Gravity where
  bodies : ℕ → Body
  initBodies : ℕ → Body
  blackHole : Body
  G : ℝ
  dt : ℝ
  pos_damping : ℝ
  vel_damping : ℝ
  softening : ℝ
  vmin : ℝ
  vmax : ℝ
  body_count : ℕ
  nudge_mode : Bool
  nudge_step : ℕ
  rand : ℕ → ℕ
  rpos : ℕ

/-- One `rand()` call: read the stream at the cursor and advance it. -/
def randNat (s : Gravity) : ℕ × Gravity :=
  (s.rand s.rpos, { s with rpos := s.rpos + 1 })

/-- `initParams`: the default simulation parameters. -/
def initParams (s : Gravity) : Gravity :=
  { s with G := 1.0, dt := 0.01, pos_damping := 0.003, vel_damping := 0.005,
           softening := 0.0, vmin := 1, vmax := 5 }

/-- The loop body of `resetBodies`: zero one slot of both arrays. -/
def zeroStep (t : Gravity) (i : ℕ) : Gravity :=
  { t with bodies := Function.update t.bodies i Body.zero,
           initBodies := Function.update t.initBodies i Body.zero }

/-- `resetBodies`: zero every body and initial-body record (indices 0..9). -/
def resetBodies (s : Gravity) : Gravity :=
  (List.range 10).foldl zeroStep s

/-- `setG`: reject outside [0, 10], store `g` floored at 0.1. -/
def setG (s : Gravity) (g : ℝ) : Gravity :=
  if g < 0.0 ∨ g > 10.0 then s
  else { s with G := if g < 0.1 then 0.1 else g }

/-- `setDt`: reject outside (0, 0.1], store as given. -/
def setDt (s : Gravity) (dt : ℝ) : Gravity :=
  if dt ≤ 0.0 ∨ dt > 0.1 then s
  else { s with dt := dt }

/-- `setPosDamping`: reject outside [0, 0.1], store `damp / 10000`. -/
def setPosDamping (s : Gravity) (damp : ℝ) : Gravity :=
  if damp < 0.0 ∨ damp > 0.1 then s
  else { s with pos_damping := damp / 10000 }

/-- `setVelDamping`: reject outside [0, 0.5], store as given. -/
def setVelDamping (s : Gravity) (damp : ℝ) : Gravity :=
  if damp < 0.0 ∨ damp > 0.5 then s
  else { s with vel_damping := damp }

/-- `setSoftening`: reject outside [0, 5], store as given. -/
def setSoftening (s : Gravity) (x : ℝ) : Gravity :=
  if x < 0.0 ∨ x > 5.0 then s
  else { s with softening := x }

/-- `setVmin`: reject outside [0.1, 1000]; store, raising `vmax` if needed. -/
def setVmin (s : Gravity) (v : ℝ) : Gravity :=
  if v < 0.1 ∨ v > 1000.0 then s
  else
    let s1 := { s with vmin := v }
    if s1.vmax < v then { s1 with vmax := v } else s1

/-- `setVmax`: reject outside [1, 10000]; store, lowering `vmin` if needed. -/
def setVmax (s : Gravity) (v : ℝ) : Gravity :=
  if v < 1.0 ∨ v > 10000.0 then s
  else
    let s1 := { s with vmax := v }
    if s1.vmin > v then { s1 with vmin := v } else s1

/-- `setBodyCount`: reject outside [2, 10], store as given.  (A negative C++
`int` argument is also rejected by the source; the `ℕ` model only represents
the nonnegative arguments.) -/
def setBodyCount (s : Gravity) (count : ℕ) : Gravity :=
  if count < 2 ∨ count > 10 then s
  else { s with body_count := count }

/-- `setBodyMass`: reject an index outside [0, 9] or a mass outside [0.1, 30];
otherwise overwrite only the mass of the live body at that slot. -/
def setBodyMass (s : Gravity) (index : ℕ) (mass : ℝ) : Gravity :=
  if index > 9 then s
  else if mass < 0.1 ∨ mass > 30 then s
  else
    let body := { s.bodies index with mass := mass }
    { s with bodies := Function.update s.bodies index body }

/-- `setBlackHole`: validate x, y in [-500, 500] and mass in [0, 10000]; on
success replace position and mass and zero velocity and acceleration. -/
def setBlackHole (s : Gravity) (x y mass : ℝ) : Gravity :=
  if x < -500 ∨ x > 500 then s
  else if y < -500 ∨ y > 500 then s
  else if mass < 0 ∨ mass > 10000 then s
  else { s with blackHole := ⟨x, y, 0, 0, 0, 0, mass⟩ }

/-- `getBody`: bounds-checked accessor, falling back to slot 0. -/
def getBody (s : Gravity) (index : ℕ) : Body :=
  if index > 9 then s.bodies 0 else s.bodies index

/-- `getInitBody`: bounds-checked accessor, falling back to slot 0. -/
def getInitBody (s : Gravity) (index : ℕ) : Body :=
  if index > 9 then s.initBodies 0 else s.initBodies index

/-- The softened squared distance of `computeAcceleration`: the squared
separation plus the square of `max(softening, distance * softening)`. -/
def softDistSqr (softening : ℝ) (target other : Body) : ℝ :=
  let v := GravityMath.calcRelativePositionVector target.x target.y other.x other.y
  let distance := GravityMath.calcEuclideanDistance v.x v.y
  let currentSoftening := max softening (distance * softening)
  v.x * v.x + v.y * v.y + currentSoftening * currentSoftening

/-- The body of the accumulation loop of `computeAcceleration`: add the
pairwise Newtonian acceleration of `other` on `target` to the accumulator,
skipping the pair when the softened squared distance is ≤ 0 or below 1e-4. -/
def pairAccum (G softening : ℝ) (target other : Body) (acc : ℝ × ℝ) : ℝ × ℝ :=
  let v := GravityMath.calcRelativePositionVector target.x target.y other.x other.y
  let distSqr := softDistSqr softening target other
  if distSqr ≤ 0.0 ∨ distSqr < 0.0001 then acc
  else
    let invDist := 1.0 / Real.sqrt distSqr
    let invDist3 := invDist * invDist * invDist
    (acc.1 + G * other.mass * v.x * invDist3,
     acc.2 + G * other.mass * v.y * invDist3)

/-- `computeAcceleration`: total gravitational acceleration on the body at
`targetIndex` from every other active body and the black hole (skipped when
its mass is zero). -/
def computeAcceleration (s : Gravity) (targetIndex : ℕ) : Vector :=
  let target := s.bodies targetIndex
  let r := (List.range (s.body_count + 1)).foldl (fun acc i =>
    if i = targetIndex then acc
    else
      let other := if i < s.body_count then s.bodies i else s.blackHole
      if i = s.body_count ∧ s.blackHole.mass = 0 then acc
      else pairAccum s.G s.softening target other acc) (0, 0)
  ⟨r.1, r.2⟩

/-- `initBody`: (re)compute a body's starting acceleration from the current
system state, including the origin-ward position damping term. -/
def initBody (s : Gravity) (index : ℕ) : Gravity :=
  let body := s.bodies index
  let v := computeAcceleration s index
  let pdamp := GravityMath.calcPositionDamping body.x body.y s.pos_damping
  let nb := { body with ax := v.x - body.x * pdamp, ay := v.y - body.y * pdamp }
  { s with bodies := Function.update s.bodies index nb }

/-- `setBody`: bounds-check the index, write both the live and the
initial-condition record for the slot, then recompute the starting
acceleration via `initBody`. -/
def setBody (s : Gravity) (index : ℕ) (x y vx vy mass : ℝ) : Gravity :=
  if index > 9 then s
  else
    let nb := { s.bodies index with x := x, y := y, vx := vx, vy := vy, mass := mass }
    let s1 := { s with
      bodies := Function.update s.bodies index nb,
      initBodies := Function.update s.initBodies index ⟨x, y, vx, vy, 0, 0, mass⟩ }
    initBody s1 index

/-- One iteration of the loop of `reset`: copy position, velocity and
acceleration (but not the mass) back from the initial-condition record, then
recompute the starting acceleration. -/
def resetStep (s : Gravity) (i : ℕ) : Gravity :=
  let body := s.bodies i
  let iBody := s.initBodies i
  let nb := { body with x := iBody.x, y := iBody.y, vx := iBody.vx, vy := iBody.vy,
                        ax := iBody.ax, ay := iBody.ay }
  let s1 := { s with bodies := Function.update s.bodies i nb }
  initBody s1 i

/-- `reset`: restore all ten bodies from their initial-condition records. -/
def reset (s : Gravity) : Gravity := (List.range 10).foldl resetStep s

/-- `nudge`: arm the transient nudge mode. -/
def nudge (s : Gravity) : Gravity := { s with nudge_mode := true }

/-- `std::numeric_limits<double>::max()`, the seed of the minimum search in
`computeAdaptiveDt`. -/
def dblMax : ℝ := 1.7976931348623157e308

/-- `computeAdaptiveDt`: scale the base timestep by `0.8 + 0.8 * tanh(0.8 *
minimum pairwise distance)` and floor the result at 0.001. -/
def computeAdaptiveDt (s : Gravity) : ℝ :=
  let minDist := (List.range s.body_count).foldl (fun m i =>
    (List.range' (i + 1) (s.body_count - (i + 1))).foldl (fun m j =>
      let dist := GravityMath.calcEuclideanDistancePts
        (s.bodies i).x (s.bodies i).y (s.bodies j).x (s.bodies j).y
      if dist < m then dist else m) m) dblMax
  let scale := 0.8 + 0.8 * Real.tanh (minDist * 0.8)
  let dampDt := s.dt * scale
  max dampDt 0.001

/-- One iteration of the loop of `applyMinSpeed`: far from the origin, a slow
body with small acceleration receives one random impulse in [0.02, 0.07]. -/
def applyMinSpeedStep (s : Gravity) (i : ℕ) : Gravity :=
  let body := s.bodies i
  let r := GravityMath.calcRadiusFromCenter body.x body.y
  if r < 100.0 * 100.0 then s
  else
    let v := GravityMath.calcSpeed body.vx body.vy
    let a := GravityMath.calcAcceleration body.ax body.ay
    if v < s.vmin ∧ a < 0.01 then
      let d1 := randNat s
      let d2 := randNat d1.2
      let imp := GravityMath.randomImpulse d1.1 d2.1 0.02 0.07
      let nb := { body with vx := body.vx + imp.x, vy := body.vy + imp.y }
      { d2.2 with bodies := Function.update d2.2.bodies i nb }
    else s

/-- `applyMinSpeed`: the global minimum-speed pass over the active bodies. -/
def applyMinSpeed (s : Gravity) : Gravity :=
  (List.range s.body_count).foldl applyMinSpeedStep s

/-- One iteration of the neighbour loop of `applyCloseBodyRepulsion`: a
repulsive, jittered acceleration contribution from a close neighbour (another
active body, or the black hole when its mass is nonzero). -/
def repulsionNeighbor (index : ℕ) (repel_zone repel_max : ℝ)
    (s : Gravity) (j : ℕ) : Gravity :=
  if j = index then s
  else
    let body := s.bodies index
    let nbbody := if j < s.body_count then s.bodies j else s.blackHole
    if j = s.body_count ∧ s.blackHole.mass = 0 then s
    else
      let v := GravityMath.calcRelativePositionVector nbbody.x nbbody.y body.x body.y
      if |v.x| > repel_zone ∨ |v.y| > repel_zone then s
      else
        let dist_sqr := v.x * v.x + v.y * v.y
        if dist_sqr ≥ repel_zone * repel_zone then s
        else
          let dist := Real.sqrt dist_sqr + 1e-6
          let norm := 1.0 / dist
          let factor := (repel_zone - dist) / repel_zone
          let base_strength := repel_max * factor * factor
          let d := randNat s
          let jitter := ((d.1 : ℝ) / RAND_MAX - 0.5) * base_strength * 2.0
          let fx := (base_strength + jitter) * v.x * norm
          let fy := (base_strength + jitter) * v.y * norm
          let b := d.2.bodies index
          let nb := { b with ax := b.ax - fx, ay := b.ay - fy }
          { d.2 with bodies := Function.update d.2.bodies index nb }

/-- `applyCloseBodyRepulsion`: far from the origin, a stagnating body receives
one strong random impulse and repulsive acceleration from close neighbours. -/
def applyCloseBodyRepulsion (s : Gravity) (index : ℕ)
    (vmin amin repel_zone repel_max : ℝ) : Gravity :=
  if index ≥ s.body_count then s
  else
    let body := s.bodies index
    let r := GravityMath.calcRadiusFromCenter body.x body.y
    if r < 100.0 * 100.0 then s
    else
      let v := GravityMath.calcSpeed body.vx body.vy
      let acc := GravityMath.calcAcceleration body.ax body.ay
      if ¬(v < vmin ∧ acc < amin) then s
      else
        let d1 := randNat s
        let d2 := randNat d1.2
        let angle := (d1.1 : ℝ) / RAND_MAX * 2.0 * Real.pi
        let impulse := 0.02 + (d2.1 : ℝ) / RAND_MAX * 0.05
        let b := d2.2.bodies index
        let nb := { b with vx := b.vx + impulse * Real.cos angle,
                           vy := b.vy + impulse * Real.sin angle }
        let s3 := { d2.2 with bodies := Function.update d2.2.bodies index nb }
        (List.range (s3.body_count + 1)).foldl
          (repulsionNeighbor index repel_zone repel_max) s3

/-- One iteration of the first loop of `simulate` (Leapfrog stage 1): the
position update with the adaptive step `h`. -/
def posStep (h : ℝ) (s : Gravity) (i : ℕ) : Gravity :=
  let body := s.bodies i
  let nb := { body with x := body.x + body.vx * h + 0.5 * body.ax * h * h,
                        y := body.y + body.vy * h + 0.5 * body.ay * h * h }
  { s with bodies := Function.update s.bodies i nb }

/-- One iteration of the second loop of `simulate`: recompute the acceleration
(the same computation as `initBody`) and apply the stagnation repulsion with
the hardcoded thresholds (0.02, 0.001, 1.0, 0.1). -/
def accStep (s : Gravity) (i : ℕ) : Gravity :=
  applyCloseBodyRepulsion (initBody s i) i 0.02 0.001 1.0 0.1

/-- One iteration of the third loop of `simulate`: Leapfrog stage 2 velocity
update with the cached old acceleration `oldA`, the nudge-mode velocity
override, the speed-dependent velocity damping, and the speed clamp. -/
def velStep (h : ℝ) (oldA : ℕ → ℝ × ℝ) (s : Gravity) (i : ℕ) : Gravity :=
  let body := s.bodies i
  let vxA := body.vx + 0.5 * ((oldA i).1 + body.ax) * h
  let vyA := body.vy + 0.5 * ((oldA i).2 + body.ay) * h
  let st :=
    if s.nudge_mode then
      let mode1 := if s.nudge_step = 20 then false else s.nudge_mode
      let step1 := if s.nudge_step = 20 then 0 else s.nudge_step
      let nudge_factor := 10 * (5.0 + s.pos_damping)
      let d1 := randNat s
      let d2 := randNat d1.2
      let v := GravityMath.randomImpulse d1.1 d2.1
        (-nudge_factor / 2) (nudge_factor / 2)
      ({ d2.2 with nudge_mode := mode1, nudge_step := step1 + 1 }, v.x, v.y)
    else (s, vxA, vyA)
  let s1 := st.1
  let vx1 := st.2.1
  let vy1 := st.2.2
  let speed := GravityMath.calcSpeed vx1 vy1
  let vdamp := s1.vel_damping * (1.0 + speed)
  let vx2 := vx1 * (1.0 - vdamp)
  let vy2 := vy1 * (1.0 - vdamp)
  let v2 := GravityMath.clampSpeed vx2 vy2 s1.vmin s1.vmax
  let nb := { s1.bodies i with vx := v2.x, vy := v2.y }
  { s1 with bodies := Function.update s1.bodies i nb }

/-- `simulate`: one Leapfrog step — adaptive timestep, position update, cached
old accelerations, acceleration recomputation with repulsion, velocity update
with nudge override, damping and clamping, then the minimum-speed pass. -/
def simulate (s : Gravity) : Gravity :=
  let h := computeAdaptiveDt s
  let s1 := (List.range s.body_count).foldl (posStep h) s
  let oldA : ℕ → ℝ × ℝ := fun i => ((s1.bodies i).ax, (s1.bodies i).ay)
  let s2 := (List.range s1.body_count).foldl accStep s1
  let s3 := (List.range s2.body_count).foldl (velStep h oldA) s2
  applyMinSpeed s3

/-- Preset 1 (case 0): simple rotating ring around a massive center. -/
def presetCase0 (s0 : Gravity) : Gravity :=
  let s := setG s0 0.1
  let s := setDt s 0.01
  let s := setSoftening s 0
  let s := setPosDamping s 0.02
  let s := setVelDamping s 0.005
  let s := setBodyCount s 10
  let s := setBody s 0 50 0 0 0.4 1
  let s := setBody s 1 40 40 (-0.3) 0.3 1
  let s := setBody s 2 0 50 (-0.4) 0.0 1
  let s := setBody s 3 (-40) 40 (-0.3) (-0.3) 1
  let s := setBody s 4 (-50) 0 0 (-0.4) 1
  let s := setBody s 5 (-40) (-40) 0.3 (-0.3) 1
  let s := setBody s 6 0 (-50) 0.4 0.0 1
  let s := setBody s 7 40 (-8) 0.3 0.3 1
  let s := setBody s 8 0 0 0.0 0.0 3
  setBody s 9 0 30 0.0 0.0 0.5

/-- Preset 2 (case 1): asymmetric cluster with slow drift. -/
def presetCase1 (s0 : Gravity) : Gravity :=
  let s := setG s0 0.1
  let s := setDt s 0.01
  let s := setSoftening s 0
  let s := setPosDamping s 0.02
  let s := setVelDamping s 0.01
  let s := setBodyCount s 10
  let s := setBody s 0 50 20 0.1 0.05 1
  let s := setBody s 1 (-40) (-10) (-0.1) 0.1 1
  let s := setBody s 2 (-60) 70 0.1 (-0.05) 1
  let s := setBody s 3 30 (-60) (-0.1) (-0.1) 1
  let s := setBody s 4 10 10 0.0 0.0 2
  let s := setBody s 5 (-10) (-40) 0.05 0.0 0.8
  let s := setBody s 6 0 (-70) 0.0 0.1 0.8
  let s := setBody s 7 (-80) 20 0.1 0.0 0.8
  let s := setBody s 8 70 (-20) (-0.05) 0.1 0.8
  setBody s 9 0 0 0.0 0.0 3

/-- Preset 3 (case 2): spiral start with mild rotation. -/
def presetCase2 (s0 : Gravity) : Gravity :=
  let s := setG s0 0.1
  let s := setDt s 0.01
  let s := setSoftening s 0
  let s := setPosDamping s 0.02
  let s := setVelDamping s 0.01
  let s := setBodyCount s 10
  (List.range 10).foldl (fun s (i : ℕ) =>
    let angle := (i : ℝ) * 0.6
    let radius := 20.0 * (i : ℝ)
    let x := Real.cos angle * radius
    let y := Real.sin angle * radius
    let vx := -Real.sin angle * 0.2
    let vy := Real.cos angle * 0.2
    setBody s i x y vx vy 1.0) s

/-- Preset 4 (case 3): symmetrical cross. -/
def presetCase3 (s0 : Gravity) : Gravity :=
  let s := setG s0 0.3
  let s := setDt s 0.008
  let s := setSoftening s 0
  let s := setPosDamping s 0.02
  let s := setVelDamping s 0.01
  let s := setBodyCount s 10
  (List.range 5).foldl (fun s (i : ℕ) =>
    let s := setBody s i 0 ((i : ℝ) * 50.0 - 100.0) 0.2 0 1.0
    setBody s (i + 5) ((i : ℝ) * 50.0 - 100.0) 0 0 (-0.2) 1.0) s

/-- Preset 5 (case 4): circular orbit with center mass. -/
def presetCase4 (s0 : Gravity) : Gravity :=
  let s := setG s0 0.1
  let s := setDt s 0.02
  let s := setSoftening s 0.5
  let s := setPosDamping s 0.02
  let s := setVelDamping s 0.002
  let s := setBodyCount s 10
  let s := (List.range 10).foldl (fun s (i : ℕ) =>
    let angle := 2 * Real.pi * (i : ℝ) / 9.0
    let x := 100.0 * Real.cos angle
    let y := 100.0 * Real.sin angle
    let vx := -Real.sin angle * 0.5
    let vy := Real.cos angle * 0.5
    setBody s i x y vx vy 1.0) s
  setBody s 9 0 0 0 0 5.0

/-- Preset 6 (case 5): random cluster; positions, velocities and masses drawn
from the pseudo-random stream exactly in the call order of the source. -/
def presetCase5 (s0 : Gravity) : Gravity :=
  let s := setG s0 0.5
  let s := setDt s 0.01
  let s := setSoftening s 0.4
  let s := setPosDamping s 0.02
  let s := setVelDamping s 0.01
  let s := setBodyCount s 10
  (List.range 10).foldl (fun s i =>
    let d1 := randNat s
    let x := ((d1.1 % 200 : ℕ) : ℝ) - 100
    let d2 := randNat d1.2
    let y := ((d2.1 % 200 : ℕ) : ℝ) - 100
    let d3 := randNat d2.2
    let vx := (((d3.1 % 200 : ℕ) : ℝ) - 100) * 0.005
    let d4 := randNat d3.2
    let vy := (((d4.1 % 200 : ℕ) : ℝ) - 100) * 0.005
    let d5 := randNat d4.2
    setBody d5.2 i x y vx vy (0.5 + ((d5.1 % 100 : ℕ) : ℝ) * 0.01)) s

/-- Preset 7 (case 6): two binary systems plus orbiters. -/
def presetCase6 (s0 : Gravity) : Gravity :=
  let s := setG s0 0.2
  let s := setDt s 0.01
  let s := setSoftening s 0
  let s := setPosDamping s 0.02
  let s := setVelDamping s 0.005
  let s := setBodyCount s 10
  let s := setBody s 0 (-50) 0 0 0.3 1
  let s := setBody s 1 (-30) 0 0 (-0.3) 1
  let s := setBody s 2 50 0 0 (-0.3) 1
  let s := setBody s 3 30 0 0 0.3 1
  let s := setBody s 4 0 80 (-0.3) 0 1
  let s := setBody s 5 0 60 0.3 0 1
  let s := setBody s 6 0 (-60) 0.3 0 1
  let s := setBody s 7 0 (-80) (-0.3) 0 1
  let s := setBody s 8 0 0 0 0 2
  setBody s 9 0 20 0 0 0.5

/-- Preset 8 (case 7): figure-eight three-body choreography. -/
def presetCase7 (s0 : Gravity) : Gravity :=
  let s := setG s0 1.0
  let s := setDt s 0.005
  let s := setSoftening s 0.01
  let s := setPosDamping s 0.0
  let s := setVelDamping s 0.0
  let s := setBodyCount s 3
  let s := setBody s 0 0 0 0.347111 0.532728 1
  let s := setBody s 1 0.970004 (-0.243087) (-0.347111) 0.532728 1
  let s := setBody s 2 (-0.970004) 0.243087 0 (-1.065456) 1
  (List.range' 3 7).foldl (fun s i => setBody s i 0 0 0 0 0) s

/-- Preset 9 (case 8): line of increasing mass and spacing. -/
def presetCase8 (s0 : Gravity) : Gravity :=
  let s := setG s0 0.15
  let s := setDt s 0.01
  let s := setSoftening s 0.2
  let s := setPosDamping s 0.02
  let s := setVelDamping s 0.005
  let s := setBodyCount s 10
  (List.range 10).foldl (fun s (i : ℕ) =>
    let x := (i : ℝ) * 50.0
    let vy := ((i : ℝ) - 5) * 0.1
    let mass := 0.5 + 0.5 * (i : ℝ)
    setBody s i x 0 0 vy mass) s

/-- Preset 10 (case 9): radial outburst from center. -/
def presetCase9 (s0 : Gravity) : Gravity :=
  let s := setG s0 0.2
  let s := setDt s 0.008
  let s := setSoftening s 0
  let s := setPosDamping s 0.02
  let s := setVelDamping s 0.01
  let s := setBodyCount s 10
  (List.range 10).foldl (fun s (i : ℕ) =>
    let angle := 2 * Real.pi * (i : ℝ) / 10.0
    let vx := Real.cos angle * 0.3
    let vy := Real.sin angle * 0.3
    setBody s i 0 0 vx vy 1.0) s

/-- Preset 11 (case 10): asymmetric chaos at high speed. -/
def presetCase10 (s0 : Gravity) : Gravity :=
  let s := setG s0 0.15
  let s := setDt s 0.01
  let s := setSoftening s 0.05
  let s := setPosDamping s 0.02
  let s := setVelDamping s 0.0005
  let s := setBodyCount s 5
  let s := setBody s 0 (-120) 80 0.9 (-0.4) 1.5
  let s := setBody s 1 100 60 (-0.5) 0.6 2.0
  let s := setBody s 2 0 (-100) 0.4 0.8 1.2
  let s := setBody s 3 50 50 (-0.9) (-0.2) 0.8
  setBody s 4 (-70) (-80) 0.6 0.3 1.0

/-- Preset 12 (case 11): chaos cluster drift. -/
def presetCase11 (s0 : Gravity) : Gravity :=
  let s := setG s0 0.2
  let s := setDt s 0.008
  let s := setSoftening s 0.05
  let s := setPosDamping s 0.02
  let s := setVelDamping s 0.001
  let s := setBodyCount s 6
  let s := setBody s 0 (-40) 20 0.5 0.4 1.0
  let s := setBody s 1 30 (-10) (-0.6) 0.3 1.8
  let s := setBody s 2 0 0 0.1 (-0.5) 0.6
  let s := setBody s 3 (-30) (-30) 0.3 0.6 1.2
  let s := setBody s 4 60 10 (-0.4) (-0.3) 1.5
  setBody s 5 (-50) 40 0.7 (-0.1) 0.9

/-- Preset 13 (case 12): chaos extreme. -/
def presetCase12 (s0 : Gravity) : Gravity :=
  let s := setG s0 0.25
  let s := setDt s 0.007
  let s := setSoftening s 0.07
  let s := setPosDamping s 0.02
  let s := setVelDamping s 0.0002
  let s := setBodyCount s 7
  let s := setBody s 0 (-200) 100 1.0 (-0.3) 1.2
  let s := setBody s 1 180 80 (-0.8) 0.6 2.1
  let s := setBody s 2 0 (-90) 0.5 0.9 0.7
  let s := setBody s 3 60 200 (-1.1) (-0.2) 1.4
  let s := setBody s 4 (-160) (-150) 0.9 0.4 1.0
  let s := setBody s 5 30 (-70) (-0.3) (-0.8) 0.8
  setBody s 6 90 0 (-0.5) 0.5 1.6

/-- Preset 14 (case 13): scattered triangle with tangential velocity. -/
def presetCase13 (s0 : Gravity) : Gravity :=
  let s := setG s0 0.15
  let s := setDt s 0.009
  let s := setSoftening s 0.05
  let s := setPosDamping s 0.02
  let s := setVelDamping s 0.0005
  let s := setBodyCount s 3
  let s := setBody s 0 (-100.0) (-50.0) 0.65 0.3 1.2
  let s := setBody s 1 100.0 (-50.0) (-0.6) 0.35 1.8
  setBody s 2 0.0 120.0 (-0.05) (-0.7) 2.0

/-- The switch of `loadPreset`, on the already clamped-and-decremented case
number; the default branch leaves the (zeroed) bodies untouched. -/
def applyPresetCase (p : ℕ) (s : Gravity) : Gravity :=
  match p with
  | 0 => presetCase0 s
  | 1 => presetCase1 s
  | 2 => presetCase2 s
  | 3 => presetCase3 s
  | 4 => presetCase4 s
  | 5 => presetCase5 s
  | 6 => presetCase6 s
  | 7 => presetCase7 s
  | 8 => presetCase8 s
  | 9 => presetCase9 s
  | 10 => presetCase10 s
  | 11 => presetCase11 s
  | 12 => presetCase12 s
  | 13 => presetCase13 s
  | _ => s

/-- `loadPreset`: clamp the requested index into [1, 14], zero all body and
initial-body records, then apply the selected hand-authored configuration. -/
def loadPreset (s : Gravity) (presetIndex : ℤ) : Gravity :=
  let p : ℤ := if presetIndex < 1 then 1 else if presetIndex > 14 then 14 else presetIndex
  let p := p - 1
  applyPresetCase p.toNat (resetBodies s)

/-- The pre-constructor state: `body_count = 3`, nudge mode off, and (per the
modelling note above) zeroed bodies and black hole, with the pseudo-random
stream `r` and its cursor at 0. -/
def initialGravity (r : ℕ → ℕ) : Gravity :=
  { bodies := fun _ => Body.zero, initBodies := fun _ => Body.zero,
    blackHole := Body.zero, G := 0, dt := 0, pos_damping := 0,
    vel_damping := 0, softening := 0, vmin := 0, vmax := 0,
    body_count := 3, nudge_mode := false, nudge_step := 0,
    rand := r, rpos := 0 }

/-- The constructor `Gravity::Gravity()`: default parameters, then
`loadPreset(0)` (which the clamp turns into preset 1). -/
def gravityInit (r : ℕ → ℕ) : Gravity :=
  loadPreset (initParams (initialGravity r)) 0

/-- The mutating operations of the public surface of the engine. -/
inductive Op where
  | setG (g : ℝ)
  | setDt (d : ℝ)
  | setPosDamping (d : ℝ)
  | setVelDamping (d : ℝ)
  | setSoftening (x : ℝ)
  | setVmin (v : ℝ)
  | setVmax (v : ℝ)
  | setBodyCount (n : ℕ)
  | setBodyMass (i : ℕ) (m : ℝ)
  | setBlackHole (x y m : ℝ)
  | setBody (i : ℕ) (x y vx vy m : ℝ)
  | loadPreset (i : ℤ)
  | reset
  | nudge
  | simulate

/-- Apply one public operation to the engine state. -/
def applyOp (s : Gravity) : Op → Gravity
  | .setG g => setG s g
  | .setDt d => setDt s d
  | .setPosDamping d => setPosDamping s d
  | .setVelDamping d => setVelDamping s d
  | .setSoftening x => setSoftening s x
  | .setVmin v => setVmin s v
  | .setVmax v => setVmax s v
  | .setBodyCount n => setBodyCount s n
  | .setBodyMass i m => setBodyMass s i m
  | .setBlackHole x y m => setBlackHole s x y m
  | .setBody i x y vx vy m => setBody s i x y vx vy m
  | .loadPreset i => loadPreset s i
  | .reset => reset s
  | .nudge => nudge s
  | .simulate => simulate s

/-- A state is reachable when some pseudo-random stream and some sequence of
public operations, run from the constructed engine, produce it. -/
def Reachable (t : Gravity) : Prop :=
  ∃ (r : ℕ → ℕ) (ops : List Op), t = ops.foldl applyOp (gravityInit r)

/-- The frame of one `simulate` call: everything except the live bodies, the
nudge bookkeeping and the random cursor is preserved, and bodies at or beyond
the (preserved) active count are untouched. -/
def OnlyLive (s t : Gravity) : Prop :=
  t.initBodies = s.initBodies ∧ t.blackHole = s.blackHole ∧ t.G = s.G ∧
  t.dt = s.dt ∧ t.pos_damping = s.pos_damping ∧ t.vel_damping = s.vel_damping ∧
  t.softening = s.softening ∧ t.vmin = s.vmin ∧ t.vmax = s.vmax ∧
  t.body_count = s.body_count ∧ ∀ j, s.body_count ≤ j → t.bodies j = s.bodies j

/-- `getG` accessor. -/
def getG (s : Gravity) : ℝ := s.G

/-- `getDt` accessor. -/
def getDt (s : Gravity) : ℝ := s.dt

/-- `getVmin` accessor. -/
def getVmin (s : Gravity) : ℝ := s.vmin

/-- `getVmax` accessor. -/
def getVmax (s : Gravity) : ℝ := s.vmax

/-- `getPosDamping` accessor. -/
def getPosDamping (s : Gravity) : ℝ := s.pos_damping

/-- `getVelDamping` accessor. -/
def getVelDamping (s : Gravity) : ℝ := s.vel_damping

/-- `getSoftening` accessor. -/
def getSoftening (s : Gravity) : ℝ := s.softening

/-- `getBodyCount` accessor. -/
def getBodyCount (s : Gravity) : ℕ := s.body_count

/-- `getBlackHole` accessor. -/
def getBlackHoleBody (s : Gravity) : Body := s.blackHole

/-- The pseudo-random stream of the counterexample trace (never consumed). -/
def cexRand : ℕ → ℕ := fun _ => 0

/-- The counterexample trace: after construction, zero slots 2..9, put body 1
at (3, 4) with mass 2, configure body 0 at the origin (its `setBody` computes
the starting acceleration against body 1 at distance 5), then move body 1 to
(6, 8) (distance 10) with a further `setBody`. -/
def cexOps : List Op :=
  [Op.setBody 2 0 0 0 0 0, Op.setBody 3 0 0 0 0 0, Op.setBody 4 0 0 0 0 0,
   Op.setBody 5 0 0 0 0 0, Op.setBody 6 0 0 0 0 0, Op.setBody 7 0 0 0 0 0,
   Op.setBody 8 0 0 0 0 0, Op.setBody 9 0 0 0 0 0,
   Op.setBody 1 3 4 0 0 2, Op.setBody 0 0 0 0 0 1, Op.setBody 1 6 8 0 0 2]

/-- The engine state reached by the counterexample trace. -/
def cexState : Gravity := cexOps.foldl applyOp (gravityInit cexRand)

/-- The state after the eight zeroing `setBody` calls of the trace. -/
def cexZ : Gravity :=
  setBody (setBody (setBody (setBody (setBody (setBody (setBody (setBody
    (gravityInit cexRand) 2 0 0 0 0 0) 3 0 0 0 0 0) 4 0 0 0 0 0) 5 0 0 0 0 0)
    6 0 0 0 0 0) 7 0 0 0 0 0) 8 0 0 0 0 0) 9 0 0 0 0 0

/-- The state after additionally configuring body 1 at (3, 4). -/
def cexA : Gravity := setBody cexZ 1 3 4 0 0 2

/-- The state after additionally configuring body 0 at the origin. -/
def cexB : Gravity := setBody cexA 0 0 0 0 0 1

/-- A small fully explicit engine state used to instantiate witnesses. -/
def demoState : Gravity :=
  { bodies := fun _ => Body.zero, initBodies := fun _ => Body.zero,
    blackHole := Body.zero, G := 1, dt := 0.01, pos_damping := 0.003,
    vel_damping := 0.005, softening := 0, vmin := 1, vmax := 5,
    body_count := 2, nudge_mode := false, nudge_step := 0,
    rand := fun _ => 0, rpos := 0 }

/-- A state with the velocity of slot `i` overwritten by `(w, z)`; used to
state that the armed nudge override ignores the incoming velocity. -/
def withVel (s : Gravity) (i : ℕ) (w z : ℝ) : Gravity :=
  { s with bodies := Function.update s.bodies i ({ s.bodies i with vx := w, vy := z }) }

/-- The per-body evolution of the nudge bookkeeping inside the third loop of
`simulate`: nothing when disarmed; when armed, a counter at 20 disarms the
mode and restarts the counter at 1 (that body is still overridden), otherwise
the counter advances by one. -/
def nudgeTick : Bool × ℕ → Bool × ℕ
  | (false, k) => (false, k)
  | (true, k) => if k = 20 then (false, 1) else (true, k + 1)

/-- The nudge bookkeeping of a state, as a pair. -/
def nudgeBook (s : Gravity) : Bool × ℕ := (s.nudge_mode, s.nudge_step)

lemma sqrt_twentyfive : Real.sqrt 25 = 5 := by
  rw [show (25 : ℝ) = 5 ^ 2 by norm_num, Real.sqrt_sq (by norm_num)]

lemma sqrt_hundred : Real.sqrt 100 = 10 := by
  rw [show (100 : ℝ) = 10 ^ 2 by norm_num, Real.sqrt_sq (by norm_num)]

lemma randNat_snd (s : Gravity) : (randNat s).2 = { s with rpos := s.rpos + 1 } := rfl

/-- `initBody` only rewrites the body at its index. -/
lemma initBody_shape (s : Gravity) (i : ℕ) :
    ∃ nb, initBody s i = { s with bodies := Function.update s.bodies i nb } :=
  ⟨_, rfl⟩

/-- `posStep` only rewrites the body at its index. -/
lemma posStep_shape (h : ℝ) (s : Gravity) (i : ℕ) :
    ∃ nb, posStep h s i = { s with bodies := Function.update s.bodies i nb } :=
  ⟨_, rfl⟩

/-- A state equals itself with a trivial update of the body at any index and
its own random cursor; the degenerate case of the shape lemmas below. -/
lemma self_shape (s : Gravity) (i : ℕ) :
    s = { s with bodies := Function.update s.bodies i (s.bodies i), rpos := s.rpos } := by
  rw [Function.update_eq_self]

lemma repulsionNeighbor_shape (index : ℕ) (rz rm : ℝ) (s : Gravity) (j : ℕ) :
    ∃ nb rp, repulsionNeighbor index rz rm s j =
      { s with bodies := Function.update s.bodies index nb, rpos := rp } := by
  unfold repulsionNeighbor
  dsimp only
  repeat' first
    | exact ⟨_, _, self_shape s index⟩
    | exact ⟨_, _, rfl⟩
    | split

/-- Composing two updates of the same slot (with random-cursor moves) is again
an update of that slot. -/
lemma update_shape_trans {s t u : Gravity} {i : ℕ}
    (h1 : ∃ nb rp, t = { s with bodies := Function.update s.bodies i nb, rpos := rp })
    (h2 : ∃ nb rp, u = { t with bodies := Function.update t.bodies i nb, rpos := rp }) :
    ∃ nb rp, u = { s with bodies := Function.update s.bodies i nb, rpos := rp } := by
  obtain ⟨nb1, rp1, rfl⟩ := h1
  obtain ⟨nb2, rp2, rfl⟩ := h2
  refine ⟨nb2, rp2, ?_⟩
  simp [Function.update_idem]

lemma foldl_update_shape {α : Type} (f : Gravity → α → Gravity) (index : ℕ)
    (hf : ∀ t a, ∃ nb rp, f t a =
      { t with bodies := Function.update t.bodies index nb, rpos := rp }) :
    ∀ (l : List α) (s : Gravity), ∃ nb rp, l.foldl f s =
      { s with bodies := Function.update s.bodies index nb, rpos := rp } := by
  intro l
  induction l with
  | nil => exact fun s => ⟨_, _, self_shape s index⟩
  | cons a l ih =>
    intro s
    obtain ⟨nb, rp, h1⟩ := hf s a
    obtain ⟨nb2, rp2, h2⟩ := ih (f s a)
    refine ⟨nb2, rp2, ?_⟩
    rw [List.foldl_cons, h2, h1]
    simp [Function.update_idem]

/-- `applyCloseBodyRepulsion` only rewrites the body at its index (and the
random cursor). -/
lemma applyCloseBodyRepulsion_shape (s : Gravity) (index : ℕ) (a b c d : ℝ) :
    ∃ nb rp, applyCloseBodyRepulsion s index a b c d =
      { s with bodies := Function.update s.bodies index nb, rpos := rp } := by
  unfold applyCloseBodyRepulsion
  dsimp only
  repeat' first
    | exact ⟨_, _, self_shape s index⟩
    | exact update_shape_trans ⟨_, _, rfl⟩
        (foldl_update_shape (repulsionNeighbor index c d) index
          (repulsionNeighbor_shape index c d) _ _)
    | split

/-- `accStep` only rewrites the body at its index (and the random cursor). -/
lemma accStep_shape (s : Gravity) (i : ℕ) :
    ∃ nb rp, accStep s i =
      { s with bodies := Function.update s.bodies i nb, rpos := rp } := by
  unfold accStep
  exact update_shape_trans ⟨_, s.rpos, rfl⟩
    (applyCloseBodyRepulsion_shape (initBody s i) i 0.02 0.001 1.0 0.1)

/-- `applyMinSpeedStep` only rewrites the body at its index (and the random
cursor). -/
lemma applyMinSpeedStep_shape (s : Gravity) (i : ℕ) :
    ∃ nb rp, applyMinSpeedStep s i =
      { s with bodies := Function.update s.bodies i nb, rpos := rp } := by
  unfold applyMinSpeedStep
  dsimp only
  repeat' first
    | exact ⟨_, _, self_shape s i⟩
    | exact ⟨_, _, rfl⟩
    | split

/-- `velStep` only rewrites the body at its index, the nudge bookkeeping and
the random cursor. -/
lemma velStep_shape (h : ℝ) (oldA : ℕ → ℝ × ℝ) (s : Gravity) (i : ℕ) :
    ∃ nb m k rp, velStep h oldA s i =
      { s with bodies := Function.update s.bodies i nb,
               nudge_mode := m, nudge_step := k, rpos := rp } := by
  unfold velStep
  split
  · exact ⟨_, _, _, _, rfl⟩
  · exact ⟨_, _, _, _, rfl⟩

/-- `resetStep` only rewrites the body at its index. -/
lemma resetStep_shape (s : Gravity) (i : ℕ) :
    ∃ nb, resetStep s i = { s with bodies := Function.update s.bodies i nb } := by
  unfold resetStep initBody
  dsimp only
  rw [Function.update_idem]
  exact ⟨_, rfl⟩

lemma onlyLive_refl (s : Gravity) : OnlyLive s s :=
  ⟨rfl, rfl, rfl, rfl, rfl, rfl, rfl, rfl, rfl, rfl, fun _ _ => rfl⟩

lemma onlyLive_trans {s t u : Gravity} (h1 : OnlyLive s t) (h2 : OnlyLive t u) :
    OnlyLive s u := by
  obtain ⟨a1, b1, c1, d1, e1, f1, g1, h1', i1, j1, k1⟩ := h1
  obtain ⟨a2, b2, c2, d2, e2, f2, g2, h2', i2, j2, k2⟩ := h2
  refine ⟨a2.trans a1, b2.trans b1, c2.trans c1, d2.trans d1, e2.trans e1,
    f2.trans f1, g2.trans g1, h2'.trans h1', i2.trans i1, j2.trans j1, ?_⟩
  intro j hj
  rw [k2 j (j1 ▸ hj), k1 j hj]

/-- A state obtained by rewriting one live slot (with arbitrary nudge
bookkeeping and random cursor) satisfies the frame. -/
lemma onlyLive_of_update {s : Gravity} {i : ℕ} (hi : i < s.body_count)
    (nb : Body) (m : Bool) (k rp : ℕ) :
    OnlyLive s { s with bodies := Function.update s.bodies i nb,
                        nudge_mode := m, nudge_step := k, rpos := rp } := by
  refine ⟨rfl, rfl, rfl, rfl, rfl, rfl, rfl, rfl, rfl, rfl, ?_⟩
  intro j hj
  exact Function.update_noteq (by omega) _ _

lemma foldl_onlyLive (f : Gravity → ℕ → Gravity)
    (hf : ∀ t i, i < t.body_count → OnlyLive t (f t i)) :
    ∀ (l : List ℕ) (s : Gravity), (∀ i ∈ l, i < s.body_count) →
      OnlyLive s (l.foldl f s) := by
  intro l
  induction l with
  | nil => exact fun s _ => onlyLive_refl s
  | cons a l ih =>
    intro s hl
    have ha : a < s.body_count := hl a (List.mem_cons_self a l)
    have h1 : OnlyLive s (f s a) := hf s a ha
    have hbc : (f s a).body_count = s.body_count := h1.2.2.2.2.2.2.2.2.2.1
    have h2 : OnlyLive (f s a) (l.foldl f (f s a)) := by
      refine ih (f s a) ?_
      intro i hi
      rw [hbc]
      exact hl i (List.mem_cons_of_mem a hi)
    exact onlyLive_trans h1 h2

lemma posStep_onlyLive (h : ℝ) (t : Gravity) (i : ℕ) (hi : i < t.body_count) :
    OnlyLive t (posStep h t i) := by
  obtain ⟨nb, hs⟩ := posStep_shape h t i
  rw [hs]
  exact onlyLive_of_update hi nb t.nudge_mode t.nudge_step t.rpos

lemma accStep_onlyLive (t : Gravity) (i : ℕ) (hi : i < t.body_count) :
    OnlyLive t (accStep t i) := by
  obtain ⟨nb, rp, hs⟩ := accStep_shape t i
  rw [hs]
  exact onlyLive_of_update hi nb t.nudge_mode t.nudge_step rp

lemma velStep_onlyLive (h : ℝ) (oldA : ℕ → ℝ × ℝ) (t : Gravity) (i : ℕ)
    (hi : i < t.body_count) : OnlyLive t (velStep h oldA t i) := by
  obtain ⟨nb, m, k, rp, hs⟩ := velStep_shape h oldA t i
  rw [hs]
  exact onlyLive_of_update hi nb m k rp

lemma applyMinSpeedStep_onlyLive (t : Gravity) (i : ℕ) (hi : i < t.body_count) :
    OnlyLive t (applyMinSpeedStep t i) := by
  obtain ⟨nb, rp, hs⟩ := applyMinSpeedStep_shape t i
  rw [hs]
  exact onlyLive_of_update hi nb t.nudge_mode t.nudge_step rp

/-- `simulate` respects the frame: only live bodies, the nudge bookkeeping and
the random cursor can change. -/
lemma simulate_onlyLive (s : Gravity) : OnlyLive s (simulate s) := by
  unfold simulate
  dsimp only
  have h1 : OnlyLive s ((List.range s.body_count).foldl
      (posStep (computeAdaptiveDt s)) s) :=
    foldl_onlyLive _ (posStep_onlyLive _) _ s (fun i hi => List.mem_range.mp hi)
  set s1 := (List.range s.body_count).foldl (posStep (computeAdaptiveDt s)) s with hs1
  have h2 : OnlyLive s1 ((List.range s1.body_count).foldl accStep s1) :=
    foldl_onlyLive _ accStep_onlyLive _ s1 (fun i hi => List.mem_range.mp hi)
  set s2 := (List.range s1.body_count).foldl accStep s1 with hs2
  have h3 : OnlyLive s2 ((List.range s2.body_count).foldl
      (velStep (computeAdaptiveDt s) (fun i => ((s1.bodies i).ax, (s1.bodies i).ay))) s2) :=
    foldl_onlyLive _ (velStep_onlyLive _ _) _ s2 (fun i hi => List.mem_range.mp hi)
  set s3 := (List.range s2.body_count).foldl
    (velStep (computeAdaptiveDt s) (fun i => ((s1.bodies i).ax, (s1.bodies i).ay))) s2 with hs3
  have h4 : OnlyLive s3 (applyMinSpeed s3) := by
    unfold applyMinSpeed
    exact foldl_onlyLive _ applyMinSpeedStep_onlyLive _ s3 (fun i hi => List.mem_range.mp hi)
  exact onlyLive_trans h1 (onlyLive_trans h2 (onlyLive_trans h3 h4))

/-- `reset` rewrites only the bodies array. -/
lemma reset_shape (s : Gravity) : ∃ b, reset s = { s with bodies := b } := by
  unfold reset
  have : ∀ (l : List ℕ) (t : Gravity), ∃ b, l.foldl resetStep t = { t with bodies := b } := by
    intro l
    induction l with
    | nil => exact fun t => ⟨t.bodies, rfl⟩
    | cons a l ih =>
      intro t
      obtain ⟨nb, h1⟩ := resetStep_shape t a
      obtain ⟨b2, h2⟩ := ih (resetStep t a)
      rw [List.foldl_cons, h2, h1]
      exact ⟨_, rfl⟩
  exact this _ s

/-- No operation of `reset` ever copies or rewrites a mass: the mass of every
live body survives a reset unchanged. -/
lemma reset_bodies_mass (s : Gravity) (j : ℕ) :
    ((reset s).bodies j).mass = ((s.bodies j).mass) := by
  unfold reset
  have step : ∀ (t : Gravity) (i : ℕ), ((resetStep t i).bodies j).mass = (t.bodies j).mass := by
    intro t i
    obtain ⟨nb, h⟩ := resetStep_shape t i
    by_cases hji : j = i
    · subst hji
      unfold resetStep initBody
      dsimp only
      rw [Function.update_idem, Function.update_same, Function.update_same]
    · rw [h]
      exact congrArg Body.mass (Function.update_noteq hji _ _)
  have : ∀ (l : List ℕ) (t : Gravity), ((l.foldl resetStep t).bodies j).mass = (t.bodies j).mass := by
    intro l
    induction l with
    | nil => exact fun t => rfl
    | cons a l ih => exact fun t => (ih (resetStep t a)).trans (step t a)
  exact this _ s

lemma foldl_proj_const {α β : Type} (proj : Gravity → β) (f : Gravity → α → Gravity)
    (hf : ∀ t a, proj (f t a) = proj t) :
    ∀ (l : List α) (s : Gravity), proj (l.foldl f s) = proj s := by
  intro l
  induction l with
  | nil => exact fun s => rfl
  | cons a l ih => exact fun s => (ih (f s a)).trans (hf s a)

lemma foldl_proj_iter {α β : Type} (proj : Gravity → β) (g : β → β)
    (f : Gravity → α → Gravity) (hf : ∀ t a, proj (f t a) = g (proj t)) :
    ∀ (l : List α) (s : Gravity), proj (l.foldl f s) = g^[l.length] (proj s) := by
  intro l
  induction l with
  | nil => exact fun s => rfl
  | cons a l ih =>
    intro s
    rw [List.foldl_cons, ih (f s a), hf s a, List.length_cons,
      Function.iterate_succ_apply]

/-- The nudge bookkeeping of one `velStep` evolves by exactly one tick. -/
lemma velStep_nudgeBook (h : ℝ) (oldA : ℕ → ℝ × ℝ) (s : Gravity) (i : ℕ) :
    nudgeBook (velStep h oldA s i) = nudgeTick (nudgeBook s) := by
  cases hm : s.nudge_mode with
  | false => simp [velStep, nudgeBook, nudgeTick, hm]
  | true =>
    by_cases hk : s.nudge_step = 20 <;>
      simp [velStep, nudgeBook, nudgeTick, hm, hk]

@[simp] lemma setG_vmin (s : Gravity) (g : ℝ) : (setG s g).vmin = s.vmin := by
  unfold setG; split <;> rfl

@[simp] lemma setG_vmax (s : Gravity) (g : ℝ) : (setG s g).vmax = s.vmax := by
  unfold setG; split <;> rfl

@[simp] lemma setDt_vmin (s : Gravity) (d : ℝ) : (setDt s d).vmin = s.vmin := by
  unfold setDt; split <;> rfl

@[simp] lemma setDt_vmax (s : Gravity) (d : ℝ) : (setDt s d).vmax = s.vmax := by
  unfold setDt; split <;> rfl

@[simp] lemma setPosDamping_vmin (s : Gravity) (d : ℝ) :
    (setPosDamping s d).vmin = s.vmin := by
  unfold setPosDamping; split <;> rfl

@[simp] lemma setPosDamping_vmax (s : Gravity) (d : ℝ) :
    (setPosDamping s d).vmax = s.vmax := by
  unfold setPosDamping; split <;> rfl

@[simp] lemma setVelDamping_vmin (s : Gravity) (d : ℝ) :
    (setVelDamping s d).vmin = s.vmin := by
  unfold setVelDamping; split <;> rfl

@[simp] lemma setVelDamping_vmax (s : Gravity) (d : ℝ) :
    (setVelDamping s d).vmax = s.vmax := by
  unfold setVelDamping; split <;> rfl

@[simp] lemma setSoftening_vmin (s : Gravity) (x : ℝ) :
    (setSoftening s x).vmin = s.vmin := by
  unfold setSoftening; split <;> rfl

@[simp] lemma setSoftening_vmax (s : Gravity) (x : ℝ) :
    (setSoftening s x).vmax = s.vmax := by
  unfold setSoftening; split <;> rfl

@[simp] lemma setBodyCount_vmin (s : Gravity) (n : ℕ) :
    (setBodyCount s n).vmin = s.vmin := by
  unfold setBodyCount; split <;> rfl

@[simp] lemma setBodyCount_vmax (s : Gravity) (n : ℕ) :
    (setBodyCount s n).vmax = s.vmax := by
  unfold setBodyCount; split <;> rfl

@[simp] lemma setBodyMass_vmin (s : Gravity) (i : ℕ) (m : ℝ) :
    (setBodyMass s i m).vmin = s.vmin := by
  unfold setBodyMass
  split
  · rfl
  · split <;> rfl

@[simp] lemma setBodyMass_vmax (s : Gravity) (i : ℕ) (m : ℝ) :
    (setBodyMass s i m).vmax = s.vmax := by
  unfold setBodyMass
  split
  · rfl
  · split <;> rfl

@[simp] lemma setBlackHole_vmin (s : Gravity) (x y m : ℝ) :
    (setBlackHole s x y m).vmin = s.vmin := by
  unfold setBlackHole
  split
  · rfl
  · split
    · rfl
    · split <;> rfl

@[simp] lemma setBlackHole_vmax (s : Gravity) (x y m : ℝ) :
    (setBlackHole s x y m).vmax = s.vmax := by
  unfold setBlackHole
  split
  · rfl
  · split
    · rfl
    · split <;> rfl

@[simp] lemma setBody_vmin (s : Gravity) (i : ℕ) (x y vx vy m : ℝ) :
    (setBody s i x y vx vy m).vmin = s.vmin := by
  unfold setBody initBody; split <;> rfl

@[simp] lemma setBody_vmax (s : Gravity) (i : ℕ) (x y vx vy m : ℝ) :
    (setBody s i x y vx vy m).vmax = s.vmax := by
  unfold setBody initBody; split <;> rfl

lemma presetCase0_vm (s : Gravity) :
    ((presetCase0 s).vmin, (presetCase0 s).vmax) = (s.vmin, s.vmax) := by
  simp [presetCase0]

lemma presetCase1_vm (s : Gravity) :
    ((presetCase1 s).vmin, (presetCase1 s).vmax) = (s.vmin, s.vmax) := by
  simp [presetCase1]

lemma presetCase2_vm (s : Gravity) :
    ((presetCase2 s).vmin, (presetCase2 s).vmax) = (s.vmin, s.vmax) := by
  unfold presetCase2
  refine (foldl_proj_const (fun t => (t.vmin, t.vmax)) _ (fun t a => ?_) _ _).trans ?_
  · dsimp only
    simp
  · simp

lemma presetCase3_vm (s : Gravity) :
    ((presetCase3 s).vmin, (presetCase3 s).vmax) = (s.vmin, s.vmax) := by
  unfold presetCase3
  refine (foldl_proj_const (fun t => (t.vmin, t.vmax)) _ (fun t a => ?_) _ _).trans ?_
  · dsimp only
    simp
  · simp

lemma presetCase4_vm (s : Gravity) :
    ((presetCase4 s).vmin, (presetCase4 s).vmax) = (s.vmin, s.vmax) := by
  unfold presetCase4
  dsimp only
  rw [show ∀ t : Gravity, ((setBody t 9 0 0 0 0 5.0).vmin, (setBody t 9 0 0 0 0 5.0).vmax)
        = (t.vmin, t.vmax) from fun t => by simp]
  refine (foldl_proj_const (fun t => (t.vmin, t.vmax)) _ (fun t a => ?_) _ _).trans ?_
  · dsimp only
    simp
  · simp

lemma presetCase5_vm (s : Gravity) :
    ((presetCase5 s).vmin, (presetCase5 s).vmax) = (s.vmin, s.vmax) := by
  unfold presetCase5
  refine (foldl_proj_const (fun t => (t.vmin, t.vmax)) _ (fun t a => ?_) _ _).trans ?_
  · dsimp only
    simp [randNat]
  · simp

lemma presetCase6_vm (s : Gravity) :
    ((presetCase6 s).vmin, (presetCase6 s).vmax) = (s.vmin, s.vmax) := by
  simp [presetCase6]

lemma presetCase7_vm (s : Gravity) :
    ((presetCase7 s).vmin, (presetCase7 s).vmax) = (s.vmin, s.vmax) := by
  unfold presetCase7
  refine (foldl_proj_const (fun t => (t.vmin, t.vmax)) _ (fun t a => ?_) _ _).trans ?_
  · dsimp only
    simp
  · simp

lemma presetCase8_vm (s : Gravity) :
    ((presetCase8 s).vmin, (presetCase8 s).vmax) = (s.vmin, s.vmax) := by
  unfold presetCase8
  refine (foldl_proj_const (fun t => (t.vmin, t.vmax)) _ (fun t a => ?_) _ _).trans ?_
  · dsimp only
    simp
  · simp

lemma presetCase9_vm (s : Gravity) :
    ((presetCase9 s).vmin, (presetCase9 s).vmax) = (s.vmin, s.vmax) := by
  unfold presetCase9
  refine (foldl_proj_const (fun t => (t.vmin, t.vmax)) _ (fun t a => ?_) _ _).trans ?_
  · dsimp only
    simp
  · simp

lemma presetCase10_vm (s : Gravity) :
    ((presetCase10 s).vmin, (presetCase10 s).vmax) = (s.vmin, s.vmax) := by
  simp [presetCase10]

lemma presetCase11_vm (s : Gravity) :
    ((presetCase11 s).vmin, (presetCase11 s).vmax) = (s.vmin, s.vmax) := by
  simp [presetCase11]

lemma presetCase12_vm (s : Gravity) :
    ((presetCase12 s).vmin, (presetCase12 s).vmax) = (s.vmin, s.vmax) := by
  simp [presetCase12]

lemma presetCase13_vm (s : Gravity) :
    ((presetCase13 s).vmin, (presetCase13 s).vmax) = (s.vmin, s.vmax) := by
  simp [presetCase13]

lemma applyPresetCase_vm (p : ℕ) (s : Gravity) :
    ((applyPresetCase p s).vmin, (applyPresetCase p s).vmax) = (s.vmin, s.vmax) := by
  match p with
  | 0 => exact presetCase0_vm s
  | 1 => exact presetCase1_vm s
  | 2 => exact presetCase2_vm s
  | 3 => exact presetCase3_vm s
  | 4 => exact presetCase4_vm s
  | 5 => exact presetCase5_vm s
  | 6 => exact presetCase6_vm s
  | 7 => exact presetCase7_vm s
  | 8 => exact presetCase8_vm s
  | 9 => exact presetCase9_vm s
  | 10 => exact presetCase10_vm s
  | 11 => exact presetCase11_vm s
  | 12 => exact presetCase12_vm s
  | 13 => exact presetCase13_vm s
  | (n + 14) => rfl

/-- `resetBodies` rewrites only the two body arrays. -/
lemma resetBodies_shape (s : Gravity) :
    ∃ b c, resetBodies s = { s with bodies := b, initBodies := c } := by
  unfold resetBodies
  have : ∀ (l : List ℕ) (t : Gravity), ∃ b c,
      l.foldl zeroStep t = { t with bodies := b, initBodies := c } := by
    intro l
    induction l with
    | nil => exact fun t => ⟨t.bodies, t.initBodies, rfl⟩
    | cons a l ih =>
      intro t
      obtain ⟨b2, c2, h2⟩ := ih _
      rw [List.foldl_cons, h2]
      exact ⟨_, _, rfl⟩
  exact this _ s

lemma loadPreset_vm (s : Gravity) (i : ℤ) :
    ((loadPreset s i).vmin, (loadPreset s i).vmax) = (s.vmin, s.vmax) := by
  unfold loadPreset
  obtain ⟨b, c, h⟩ := resetBodies_shape s
  rw [applyPresetCase_vm, h]

lemma simulate_vmin (s : Gravity) : (simulate s).vmin = s.vmin :=
  (simulate_onlyLive s).2.2.2.2.2.2.2.1

lemma simulate_vmax (s : Gravity) : (simulate s).vmax = s.vmax :=
  (simulate_onlyLive s).2.2.2.2.2.2.2.2.1

lemma simulate_body_count (s : Gravity) : (simulate s).body_count = s.body_count :=
  (simulate_onlyLive s).2.2.2.2.2.2.2.2.2.1

lemma reset_vm (s : Gravity) :
    ((reset s).vmin, (reset s).vmax) = (s.vmin, s.vmax) := by
  obtain ⟨b, h⟩ := reset_shape s
  rw [h]

/-- Across one `simulate` call the nudge bookkeeping advances by exactly one
tick per active body. -/
lemma simulate_nudgeBook (s : Gravity) :
    nudgeBook (simulate s) = nudgeTick^[s.body_count] (nudgeBook s) := by
  unfold simulate
  dsimp only
  set h := computeAdaptiveDt s with hh
  set s1 := (List.range s.body_count).foldl (posStep h) s with hs1
  set oldA : ℕ → ℝ × ℝ := fun i => ((s1.bodies i).ax, (s1.bodies i).ay) with hOldA
  set s2 := (List.range s1.body_count).foldl accStep s1 with hs2
  set s3 := (List.range s2.body_count).foldl (velStep h oldA) s2 with hs3
  have nb1 : nudgeBook s1 = nudgeBook s :=
    foldl_proj_const nudgeBook (posStep h) (fun t a => rfl) _ _
  have bc1 : s1.body_count = s.body_count :=
    foldl_proj_const Gravity.body_count (posStep h) (fun t a => rfl) _ _
  have acc_nb : ∀ (t : Gravity) (a : ℕ), nudgeBook (accStep t a) = nudgeBook t := by
    intro t a
    obtain ⟨nb, rp, hsh⟩ := accStep_shape t a
    rw [hsh]
    rfl
  have acc_bc : ∀ (t : Gravity) (a : ℕ), (accStep t a).body_count = t.body_count := by
    intro t a
    obtain ⟨nb, rp, hsh⟩ := accStep_shape t a
    rw [hsh]
  have nb2 : nudgeBook s2 = nudgeBook s :=
    (foldl_proj_const nudgeBook accStep acc_nb _ _).trans nb1
  have bc2 : s2.body_count = s.body_count :=
    (foldl_proj_const Gravity.body_count accStep acc_bc _ _).trans bc1
  have nb3 : nudgeBook s3 = nudgeTick^[s2.body_count] (nudgeBook s2) := by
    rw [hs3, foldl_proj_iter nudgeBook nudgeTick (velStep h oldA)
      (velStep_nudgeBook h oldA) _ _, List.length_range]
  have ms_nb : ∀ (t : Gravity) (a : ℕ),
      nudgeBook (applyMinSpeedStep t a) = nudgeBook t := by
    intro t a
    obtain ⟨nb, rp, hsh⟩ := applyMinSpeedStep_shape t a
    rw [hsh]
    rfl
  have nb4 : nudgeBook (applyMinSpeed s3) = nudgeBook s3 := by
    unfold applyMinSpeed
    exact foldl_proj_const nudgeBook applyMinSpeedStep ms_nb _ _
  rw [nb4, nb3, bc2, nb2]

/-- The net effect of `setBody` on a valid slot: the live record holds the
given position, velocity and mass together with a freshly computed
acceleration, and the initial-condition record holds the given values with a
zero acceleration. -/
lemma setBody_spec (s : Gravity) (index : ℕ) (x y vx vy mass : ℝ)
    (h : index ≤ 9) : ∃ a b : ℝ,
    setBody s index x y vx vy mass = { s with
      bodies := Function.update s.bodies index ⟨x, y, vx, vy, a, b, mass⟩,
      initBodies := Function.update s.initBodies index ⟨x, y, vx, vy, 0, 0, mass⟩ } := by
  unfold setBody
  rw [if_neg (by omega : ¬ index > 9)]
  unfold initBody
  dsimp only
  simp only [Function.update_same, Function.update_idem]
  exact ⟨_, _, rfl⟩

lemma setG_in (s : Gravity) {g : ℝ} (h : ¬(g < 0.0 ∨ g > 10.0)) :
    setG s g = { s with G := if g < 0.1 then 0.1 else g } := by
  unfold setG; rw [if_neg h]

lemma setDt_in (s : Gravity) {d : ℝ} (h : ¬(d ≤ 0.0 ∨ d > 0.1)) :
    setDt s d = { s with dt := d } := by
  unfold setDt; rw [if_neg h]

lemma setPosDamping_in (s : Gravity) {d : ℝ} (h : ¬(d < 0.0 ∨ d > 0.1)) :
    setPosDamping s d = { s with pos_damping := d / 10000 } := by
  unfold setPosDamping; rw [if_neg h]

lemma setVelDamping_in (s : Gravity) {d : ℝ} (h : ¬(d < 0.0 ∨ d > 0.5)) :
    setVelDamping s d = { s with vel_damping := d } := by
  unfold setVelDamping; rw [if_neg h]

lemma setSoftening_in (s : Gravity) {x : ℝ} (h : ¬(x < 0.0 ∨ x > 5.0)) :
    setSoftening s x = { s with softening := x } := by
  unfold setSoftening; rw [if_neg h]

lemma setBodyCount_in (s : Gravity) {n : ℕ} (h : ¬(n < 2 ∨ n > 10)) :
    setBodyCount s n = { s with body_count := n } := by
  unfold setBodyCount; rw [if_neg h]

@[simp] lemma setBody_G (s : Gravity) (i : ℕ) (x y vx vy m : ℝ) :
    (setBody s i x y vx vy m).G = s.G := by
  unfold setBody initBody; split <;> rfl

@[simp] lemma setBody_dt (s : Gravity) (i : ℕ) (x y vx vy m : ℝ) :
    (setBody s i x y vx vy m).dt = s.dt := by
  unfold setBody initBody; split <;> rfl

@[simp] lemma setBody_pos_damping (s : Gravity) (i : ℕ) (x y vx vy m : ℝ) :
    (setBody s i x y vx vy m).pos_damping = s.pos_damping := by
  unfold setBody initBody; split <;> rfl

@[simp] lemma setBody_vel_damping (s : Gravity) (i : ℕ) (x y vx vy m : ℝ) :
    (setBody s i x y vx vy m).vel_damping = s.vel_damping := by
  unfold setBody initBody; split <;> rfl

@[simp] lemma setBody_softening (s : Gravity) (i : ℕ) (x y vx vy m : ℝ) :
    (setBody s i x y vx vy m).softening = s.softening := by
  unfold setBody initBody; split <;> rfl

@[simp] lemma setBody_body_count (s : Gravity) (i : ℕ) (x y vx vy m : ℝ) :
    (setBody s i x y vx vy m).body_count = s.body_count := by
  unfold setBody initBody; split <;> rfl

@[simp] lemma setBody_blackHole (s : Gravity) (i : ℕ) (x y vx vy m : ℝ) :
    (setBody s i x y vx vy m).blackHole = s.blackHole := by
  unfold setBody initBody; split <;> rfl

@[simp] lemma setBody_nudge_mode (s : Gravity) (i : ℕ) (x y vx vy m : ℝ) :
    (setBody s i x y vx vy m).nudge_mode = s.nudge_mode := by
  unfold setBody initBody; split <;> rfl

@[simp] lemma setBody_nudge_step (s : Gravity) (i : ℕ) (x y vx vy m : ℝ) :
    (setBody s i x y vx vy m).nudge_step = s.nudge_step := by
  unfold setBody initBody; split <;> rfl

@[simp] lemma setBody_rand (s : Gravity) (i : ℕ) (x y vx vy m : ℝ) :
    (setBody s i x y vx vy m).rand = s.rand := by
  unfold setBody initBody; split <;> rfl

@[simp] lemma setBody_rpos (s : Gravity) (i : ℕ) (x y vx vy m : ℝ) :
    (setBody s i x y vx vy m).rpos = s.rpos := by
  unfold setBody initBody; split <;> rfl

/-- The scalar fields of the freshly constructed engine: the defaults of
`initParams` overwritten by preset 1 (the clamped `loadPreset(0)` of the
constructor), with an inactive black hole and nudge mode off. -/
lemma gravityInit_fields (r : ℕ → ℕ) :
    (gravityInit r).blackHole = Body.zero ∧ (gravityInit r).G = 0.1 ∧
    (gravityInit r).dt = 0.01 ∧ (gravityInit r).pos_damping = 0.02 / 10000 ∧
    (gravityInit r).vel_damping = 0.005 ∧ (gravityInit r).softening = 0 ∧
    (gravityInit r).vmin = 1 ∧ (gravityInit r).vmax = 5 ∧
    (gravityInit r).body_count = 10 ∧ (gravityInit r).nudge_mode = false ∧
    (gravityInit r).nudge_step = 0 ∧ (gravityInit r).rand = r ∧
    (gravityInit r).rpos = 0 := by
  unfold gravityInit loadPreset
  dsimp only
  have hp : ((if (0 : ℤ) < 1 then (1 : ℤ) else if (0 : ℤ) > 14 then (14 : ℤ) else (0 : ℤ)) - 1).toNat = 0 := by
    norm_num
  rw [hp]
  rw [show ∀ t, applyPresetCase 0 t = presetCase0 t from fun t => rfl]
  obtain ⟨b, c, hR⟩ := resetBodies_shape (initParams (initialGravity r))
  rw [hR]
  unfold presetCase0
  dsimp only
  rw [setG_in _ (by norm_num), setDt_in _ (by norm_num),
    setSoftening_in _ (by norm_num), setPosDamping_in _ (by norm_num),
    setVelDamping_in _ (by norm_num), setBodyCount_in _ (by norm_num)]
  simp [initParams, initialGravity]

lemma setBody_bodies_ne {j i : ℕ} (hj : j ≠ i) (s : Gravity) (x y vx vy m : ℝ) :
    (setBody s i x y vx vy m).bodies j = s.bodies j := by
  unfold setBody initBody
  split
  · rfl
  · dsimp only
    rw [Function.update_idem]
    exact Function.update_noteq hj _ _

lemma setBody_initBodies_ne {j i : ℕ} (hj : j ≠ i) (s : Gravity) (x y vx vy m : ℝ) :
    (setBody s i x y vx vy m).initBodies j = s.initBodies j := by
  unfold setBody initBody
  split
  · rfl
  · exact Function.update_noteq hj _ _

lemma setBody_initBodies_self (s : Gravity) {i : ℕ} (x y vx vy m : ℝ) (h : i ≤ 9) :
    (setBody s i x y vx vy m).initBodies i = ⟨x, y, vx, vy, 0, 0, m⟩ := by
  obtain ⟨a, b, e⟩ := setBody_spec s i x y vx vy m h
  rw [e]
  exact Function.update_same _ _ _

/-- The live record written by a valid `setBody`: given position, velocity and
mass (the acceleration is freshly computed and characterised elsewhere). -/
lemma setBody_bodies_self (s : Gravity) {i : ℕ} (x y vx vy m : ℝ) (h : i ≤ 9) :
    ((setBody s i x y vx vy m).bodies i).x = x ∧
    ((setBody s i x y vx vy m).bodies i).y = y ∧
    ((setBody s i x y vx vy m).bodies i).vx = vx ∧
    ((setBody s i x y vx vy m).bodies i).vy = vy ∧
    ((setBody s i x y vx vy m).bodies i).mass = m := by
  obtain ⟨a, b, e⟩ := setBody_spec s i x y vx vy m h
  rw [e]
  dsimp only
  rw [Function.update_same]
  exact ⟨rfl, rfl, rfl, rfl, rfl⟩

/-- Evaluation of `computeAcceleration` on slot 0 of a configuration with ten
active bodies where slot 0 sits at the origin, slot 1 sits at `(px, py)` with
mass `m1`, slots 2..9 sit at the origin, and the black hole is inactive: only
the slot-1 pair contributes. -/
lemma computeAcceleration_twoBody (s : Gravity) (px py d m1 : ℝ)
    (hbc : s.body_count = 10) (hG : s.G = 0.1) (hsoft : s.softening = 0)
    (hbh : s.blackHole.mass = 0)
    (h0x : (s.bodies 0).x = 0) (h0y : (s.bodies 0).y = 0)
    (h1x : (s.bodies 1).x = px) (h1y : (s.bodies 1).y = py)
    (h1m : (s.bodies 1).mass = m1)
    (hz : ∀ j, 2 ≤ j → j ≤ 9 → (s.bodies j).x = 0 ∧ (s.bodies j).y = 0)
    (hd : Real.sqrt (px * px + py * py) = d)
    (hsq : 0.0001 ≤ px * px + py * py) :
    computeAcceleration s 0 =
      ⟨0.1 * m1 * px * (1.0 / d * (1.0 / d) * (1.0 / d)),
       0.1 * m1 * py * (1.0 / d * (1.0 / d) * (1.0 / d))⟩ := by
  obtain ⟨h2x, h2y⟩ := hz 2 (by norm_num) (by norm_num)
  obtain ⟨h3x, h3y⟩ := hz 3 (by norm_num) (by norm_num)
  obtain ⟨h4x, h4y⟩ := hz 4 (by norm_num) (by norm_num)
  obtain ⟨h5x, h5y⟩ := hz 5 (by norm_num) (by norm_num)
  obtain ⟨h6x, h6y⟩ := hz 6 (by norm_num) (by norm_num)
  obtain ⟨h7x, h7y⟩ := hz 7 (by norm_num) (by norm_num)
  obtain ⟨h8x, h8y⟩ := hz 8 (by norm_num) (by norm_num)
  obtain ⟨h9x, h9y⟩ := hz 9 (by norm_num) (by norm_num)
  have hgt : ¬(px * px + py * py ≤ 0.0 ∨ px * px + py * py < 0.0001) := by
    rw [not_or]
    constructor
    · intro hle
      linarith
    · intro hlt
      linarith
  unfold computeAcceleration
  rw [hbc]
  rw [show List.range (10 + 1) = [0, 1, 2, 3, 4, 5, 6, 7, 8, 9, 10] from rfl]
  simp only [List.foldl_cons, List.foldl_nil]
  simp [pairAccum, softDistSqr, GravityMath.calcRelativePositionVector,
    GravityMath.calcEuclideanDistance, hG, hsoft, hbh, h0x, h0y, h1x, h1y, h1m,
    h2x, h2y, h3x, h3y, h4x, h4y, h5x, h5y, h6x, h6y, h7x, h7y, h8x, h8y,
    h9x, h9y, hd, hgt]

@[simp] lemma setBody_bodies_self_x (s : Gravity) {i : ℕ} (x y vx vy m : ℝ)
    (h : i ≤ 9) : ((setBody s i x y vx vy m).bodies i).x = x :=
  (setBody_bodies_self s x y vx vy m h).1

@[simp] lemma setBody_bodies_self_y (s : Gravity) {i : ℕ} (x y vx vy m : ℝ)
    (h : i ≤ 9) : ((setBody s i x y vx vy m).bodies i).y = y :=
  (setBody_bodies_self s x y vx vy m h).2.1

@[simp] lemma setBody_bodies_self_vx (s : Gravity) {i : ℕ} (x y vx vy m : ℝ)
    (h : i ≤ 9) : ((setBody s i x y vx vy m).bodies i).vx = vx :=
  (setBody_bodies_self s x y vx vy m h).2.2.1

@[simp] lemma setBody_bodies_self_vy (s : Gravity) {i : ℕ} (x y vx vy m : ℝ)
    (h : i ≤ 9) : ((setBody s i x y vx vy m).bodies i).vy = vy :=
  (setBody_bodies_self s x y vx vy m h).2.2.2.1

@[simp] lemma setBody_bodies_self_mass (s : Gravity) {i : ℕ} (x y vx vy m : ℝ)
    (h : i ≤ 9) : ((setBody s i x y vx vy m).bodies i).mass = m :=
  (setBody_bodies_self s x y vx vy m h).2.2.2.2

/-- Evaluation of the acceleration written by `initBody` on a slot-0 body at
the origin in the two-body configuration of `computeAcceleration_twoBody`. -/
lemma initBody_zero_ax (s : Gravity) (px py d m1 : ℝ)
    (hbc : s.body_count = 10) (hG : s.G = 0.1) (hsoft : s.softening = 0)
    (hbh : s.blackHole.mass = 0)
    (h0x : (s.bodies 0).x = 0) (h0y : (s.bodies 0).y = 0)
    (h1x : (s.bodies 1).x = px) (h1y : (s.bodies 1).y = py)
    (h1m : (s.bodies 1).mass = m1)
    (hz : ∀ j, 2 ≤ j → j ≤ 9 → (s.bodies j).x = 0 ∧ (s.bodies j).y = 0)
    (hd : Real.sqrt (px * px + py * py) = d)
    (hsq : 0.0001 ≤ px * px + py * py) :
    ((initBody s 0).bodies 0).ax =
      0.1 * m1 * px * (1.0 / d * (1.0 / d) * (1.0 / d)) ∧
    ((initBody s 0).bodies 0).ay =
      0.1 * m1 * py * (1.0 / d * (1.0 / d) * (1.0 / d)) := by
  unfold initBody
  dsimp only
  rw [Function.update_same]
  rw [computeAcceleration_twoBody s px py d m1 hbc hG hsoft hbh h0x h0y
    h1x h1y h1m hz hd hsq]
  dsimp only
  rw [h0x, h0y]
  constructor <;> ring

lemma setBody_zero_ax (s : Gravity) (px py d m1 : ℝ)
    (hbc : s.body_count = 10) (hG : s.G = 0.1) (hsoft : s.softening = 0)
    (hbh : s.blackHole.mass = 0)
    (h1x : (s.bodies 1).x = px) (h1y : (s.bodies 1).y = py)
    (h1m : (s.bodies 1).mass = m1)
    (hz : ∀ j, 2 ≤ j → j ≤ 9 → (s.bodies j).x = 0 ∧ (s.bodies j).y = 0)
    (hd : Real.sqrt (px * px + py * py) = d)
    (hsq : 0.0001 ≤ px * px + py * py) :
    ((setBody s 0 0 0 0 0 1).bodies 0).ax =
      0.1 * m1 * px * (1.0 / d * (1.0 / d) * (1.0 / d)) ∧
    ((setBody s 0 0 0 0 0 1).bodies 0).ay =
      0.1 * m1 * py * (1.0 / d * (1.0 / d) * (1.0 / d)) := by
  unfold setBody
  rw [if_neg (by norm_num : ¬ (0 : ℕ) > 9)]
  dsimp only
  refine initBody_zero_ax _ px py d m1 hbc hG hsoft hbh ?_ ?_ ?_ ?_ ?_ ?_ hd hsq
  · rfl
  · rfl
  · exact h1x
  · exact h1y
  · exact h1m
  · intro j h2 h9
    dsimp only
    rw [Function.update_noteq (by omega : j ≠ 0)]
    exact hz j h2 h9

lemma resetStep_zero_ax (s : Gravity) (px py d m1 : ℝ)
    (hbc : s.body_count = 10) (hG : s.G = 0.1) (hsoft : s.softening = 0)
    (hbh : s.blackHole.mass = 0)
    (hi0x : (s.initBodies 0).x = 0) (hi0y : (s.initBodies 0).y = 0)
    (h1x : (s.bodies 1).x = px) (h1y : (s.bodies 1).y = py)
    (h1m : (s.bodies 1).mass = m1)
    (hz : ∀ j, 2 ≤ j → j ≤ 9 → (s.bodies j).x = 0 ∧ (s.bodies j).y = 0)
    (hd : Real.sqrt (px * px + py * py) = d)
    (hsq : 0.0001 ≤ px * px + py * py) :
    ((resetStep s 0).bodies 0).ax =
      0.1 * m1 * px * (1.0 / d * (1.0 / d) * (1.0 / d)) ∧
    ((resetStep s 0).bodies 0).ay =
      0.1 * m1 * py * (1.0 / d * (1.0 / d) * (1.0 / d)) := by
  unfold resetStep
  dsimp only
  refine initBody_zero_ax _ px py d m1 hbc hG hsoft hbh ?_ ?_ ?_ ?_ ?_ ?_ hd hsq
  · exact hi0x
  · exact hi0y
  · exact h1x
  · exact h1y
  · exact h1m
  · intro j h2 h9
    dsimp only
    rw [Function.update_noteq (by omega : j ≠ 0)]
    exact hz j h2 h9

lemma foldl_resetStep_ne (j : ℕ) : ∀ (l : List ℕ) (t : Gravity),
    (∀ i ∈ l, i ≠ j) → (l.foldl resetStep t).bodies j = t.bodies j := by
  intro l
  induction l with
  | nil => exact fun t _ => rfl
  | cons a l ih =>
    intro t hl
    rw [List.foldl_cons, ih _ (fun i hi => hl i (List.mem_cons_of_mem a hi))]
    obtain ⟨nb, hsh⟩ := resetStep_shape t a
    rw [hsh]
    dsimp only
    exact Function.update_noteq (Ne.symm (hl a (List.mem_cons_self a l))) _ _

/-- After `reset`, slot 0 holds exactly the result of the first loop
iteration: the later iterations touch only the other slots. -/
lemma reset_bodies_zero_eq (s : Gravity) :
    (reset s).bodies 0 = (resetStep s 0).bodies 0 := by
  unfold reset
  rw [show List.range 10 = 0 :: [1, 2, 3, 4, 5, 6, 7, 8, 9] from rfl,
    List.foldl_cons]
  exact foldl_resetStep_ne 0 [1, 2, 3, 4, 5, 6, 7, 8, 9] _ (by decide)

lemma cexState_eq : cexState = setBody cexB 1 6 8 0 0 2 := by
  simp only [cexState, cexOps, List.foldl_cons, List.foldl_nil, applyOp,
    cexB, cexA, cexZ]

lemma cexState_scalars :
    cexState.body_count = 10 ∧ cexState.G = 0.1 ∧ cexState.softening = 0 ∧
    cexState.blackHole.mass = 0 := by
  have hf := gravityInit_fields cexRand
  refine ⟨?_, ?_, ?_, ?_⟩ <;>
    simp only [cexState_eq, cexB, cexA, cexZ, setBody_body_count, setBody_G,
      setBody_softening, setBody_blackHole]
  · exact hf.2.2.2.2.2.2.2.2.1
  · exact hf.2.1
  · exact hf.2.2.2.2.2.1
  · rw [hf.1]
    rfl

lemma cexZ_zeros : ∀ j, 2 ≤ j → j ≤ 9 →
    (cexZ.bodies j).x = 0 ∧ (cexZ.bodies j).y = 0 := by
  intro j h2 h9
  interval_cases j <;>
    exact ⟨by simp [cexZ, setBody_bodies_ne], by simp [cexZ, setBody_bodies_ne]⟩

lemma cexA_zeros : ∀ j, 2 ≤ j → j ≤ 9 →
    (cexA.bodies j).x = 0 ∧ (cexA.bodies j).y = 0 := by
  intro j h2 h9
  have hj : j ≠ 1 := by omega
  unfold cexA
  rw [setBody_bodies_ne hj]
  exact cexZ_zeros j h2 h9

lemma cexA_scalars :
    cexA.body_count = 10 ∧ cexA.G = 0.1 ∧ cexA.softening = 0 ∧
    cexA.blackHole.mass = 0 := by
  have hf := gravityInit_fields cexRand
  refine ⟨?_, ?_, ?_, ?_⟩ <;>
    simp only [cexA, cexZ, setBody_body_count, setBody_G, setBody_softening,
      setBody_blackHole]
  · exact hf.2.2.2.2.2.2.2.2.1
  · exact hf.2.1
  · exact hf.2.2.2.2.2.1
  · rw [hf.1]
    rfl

/-- The acceleration that the trace's `setBody` call for slot 0 computed and
stored: body 1 then stood at (3, 4) with mass 2, so the stored value is
0.1 * 2 * 3 / 125 = 0.0048 (and 0.0064 in y). -/
lemma cexB_ax : (cexB.bodies 0).ax = 0.0048 := by
  have hd : Real.sqrt ((3 : ℝ) * 3 + 4 * 4) = 5 := by
    rw [show (3 : ℝ) * 3 + 4 * 4 = 25 by norm_num]
    exact sqrt_twentyfive
  have h := setBody_zero_ax cexA 3 4 5 2 cexA_scalars.1 cexA_scalars.2.1
    cexA_scalars.2.2.1 cexA_scalars.2.2.2
    (by simp [cexA]) (by simp [cexA]) (by simp [cexA])
    cexA_zeros hd (by norm_num)
  unfold cexB
  rw [h.1]
  norm_num

lemma cexState_ax : (cexState.bodies 0).ax = 0.0048 := by
  rw [cexState_eq, setBody_bodies_ne (by norm_num : (0 : ℕ) ≠ 1)]
  exact cexB_ax

lemma cexState_init0 : cexState.initBodies 0 = ⟨0, 0, 0, 0, 0, 0, 1⟩ := by
  rw [cexState_eq, setBody_initBodies_ne (by norm_num : (0 : ℕ) ≠ 1)]
  unfold cexB
  exact setBody_initBodies_self cexA 0 0 0 0 1 (by norm_num)

lemma cexState_body1 :
    (cexState.bodies 1).x = 6 ∧ (cexState.bodies 1).y = 8 ∧
    (cexState.bodies 1).mass = 2 := by
  rw [cexState_eq]
  exact ⟨by simp, by simp, by simp⟩

lemma cexState_zeros : ∀ j, 2 ≤ j → j ≤ 9 →
    (cexState.bodies j).x = 0 ∧ (cexState.bodies j).y = 0 := by
  intro j h2 h9
  rw [cexState_eq, setBody_bodies_ne (by omega : j ≠ 1)]
  unfold cexB
  rw [setBody_bodies_ne (by omega : j ≠ 0)]
  exact cexA_zeros j h2 h9

/-- The acceleration that `reset` recomputes for slot 0 on the counterexample
state: the restoration loop sees body 1 at its new position (6, 8), so the
fresh value is 0.1 * 2 * 6 / 1000 = 0.0012 — not the stored 0.0048. -/
lemma cexState_reset_ax : ((reset cexState).bodies 0).ax = 0.0012 := by
  have hd : Real.sqrt ((6 : ℝ) * 6 + 8 * 8) = 10 := by
    rw [show (6 : ℝ) * 6 + 8 * 8 = 100 by norm_num]
    exact sqrt_hundred
  have hr := resetStep_zero_ax cexState 6 8 10 2 cexState_scalars.1
    cexState_scalars.2.1 cexState_scalars.2.2.1 cexState_scalars.2.2.2
    (by rw [cexState_init0]) (by rw [cexState_init0])
    cexState_body1.1 cexState_body1.2.1 cexState_body1.2.2
    cexState_zeros hd (by norm_num)
  rw [reset_bodies_zero_eq, hr.1]
  norm_num

lemma foldl_proj_const_mem {α β : Type} (proj : Gravity → β) (f : Gravity → α → Gravity) :
    ∀ (l : List α) (s : Gravity), (∀ t a, a ∈ l → proj (f t a) = proj t) →
      proj (l.foldl f s) = proj s := by
  intro l
  induction l with
  | nil => exact fun s _ => rfl
  | cons a l ih =>
    intro s hf
    rw [List.foldl_cons, ih (f s a) (fun t b hb => hf t b (List.mem_cons_of_mem a hb)),
      hf s a (List.mem_cons_self a l)]

lemma resetStep_initBodies (t : Gravity) (i : ℕ) :
    (resetStep t i).initBodies = t.initBodies := rfl

lemma reset_initBodies (s : Gravity) : (reset s).initBodies = s.initBodies := by
  obtain ⟨b, h⟩ := reset_shape s
  rw [h]

lemma foldl_resetStep_initBodies (l : List ℕ) (t : Gravity) :
    (l.foldl resetStep t).initBodies = t.initBodies :=
  foldl_proj_const Gravity.initBodies resetStep (fun _ _ => rfl) l t

/-- In `reset`, slot `i` receives its value in the `i`-th loop iteration and
is untouched afterwards. -/
lemma reset_decomp (s : Gravity) {i : ℕ} (h : i < 10) :
    (reset s).bodies i = (resetStep ((List.range i).foldl resetStep s) i).bodies i := by
  unfold reset
  rw [show (10 : ℕ) = (i + 1) + (9 - i) by omega, List.range_add,
    List.foldl_append, List.range_succ, List.foldl_append]
  rw [show ∀ (t : Gravity), List.foldl resetStep t [i] = resetStep t i from fun t => rfl]
  apply foldl_resetStep_ne
  intro x hx
  obtain ⟨k, hk, rfl⟩ := List.mem_map.mp hx
  omega

/-- The restoration part of one `resetStep`: position and velocity are copied
from the initial-condition record. -/
lemma resetStep_restores (t : Gravity) (i : ℕ) :
    ((resetStep t i).bodies i).x = (t.initBodies i).x ∧
    ((resetStep t i).bodies i).y = (t.initBodies i).y ∧
    ((resetStep t i).bodies i).vx = (t.initBodies i).vx ∧
    ((resetStep t i).bodies i).vy = (t.initBodies i).vy := by
  unfold resetStep initBody
  dsimp only
  rw [Function.update_idem]
  simp [Function.update_same]

lemma setBodyMass_in (s : Gravity) {index : ℕ} {mass : ℝ} (h1 : index ≤ 9)
    (h2 : ¬(mass < 0.1 ∨ mass > 30)) :
    setBodyMass s index mass = { s with
      bodies := Function.update s.bodies index ({ s.bodies index with mass := mass }) } := by
  unfold setBodyMass
  rw [if_neg (by omega : ¬ index > 9), if_neg h2]

/-- A pair at identical coordinates contributes exactly zero to the
acceleration sum: either the skip guard fires, or the zero displacement
annihilates the term. -/
lemma pairAccum_identical (G soft : ℝ) (t o : Body) (acc : ℝ × ℝ)
    (hx : o.x = t.x) (hy : o.y = t.y) : pairAccum G soft t o acc = acc := by
  unfold pairAccum softDistSqr GravityMath.calcRelativePositionVector
    GravityMath.calcEuclideanDistance
  dsimp only
  rw [hx, hy, sub_self, sub_self]
  split
  · rfl
  · simp

lemma calcSpeed_nonneg (vx vy : ℝ) : 0 ≤ GravityMath.calcSpeed vx vy :=
  Real.sqrt_nonneg _

lemma calcSpeed_scale (c vx vy : ℝ) :
    GravityMath.calcSpeed (vx * c) (vy * c) = |c| * GravityMath.calcSpeed vx vy := by
  unfold GravityMath.calcSpeed
  rw [show vx * c * (vx * c) + vy * c * (vy * c) = (c * c) * (vx * vx + vy * vy)
    by ring, Real.sqrt_mul (mul_self_nonneg c), Real.sqrt_mul_self_eq_abs]

lemma clampSpeed_of_zero {vx vy vmin vmax : ℝ}
    (h : GravityMath.calcSpeed vx vy = 0) :
    GravityMath.clampSpeed vx vy vmin vmax = ⟨vx, vy⟩ := by
  simp [GravityMath.clampSpeed, h]

lemma clampSpeed_of_lt {vx vy vmin vmax : ℝ}
    (h0 : ¬ GravityMath.calcSpeed vx vy = 0)
    (h1 : GravityMath.calcSpeed vx vy < vmin) :
    GravityMath.clampSpeed vx vy vmin vmax =
      ⟨vx * (vmin / GravityMath.calcSpeed vx vy),
       vy * (vmin / GravityMath.calcSpeed vx vy)⟩ := by
  simp [GravityMath.clampSpeed, h0, h1]

lemma clampSpeed_of_gt {vx vy vmin vmax : ℝ}
    (h0 : ¬ GravityMath.calcSpeed vx vy = 0)
    (h1 : ¬ GravityMath.calcSpeed vx vy < vmin)
    (h2 : GravityMath.calcSpeed vx vy > vmax) :
    GravityMath.clampSpeed vx vy vmin vmax =
      ⟨vx * (vmax / GravityMath.calcSpeed vx vy),
       vy * (vmax / GravityMath.calcSpeed vx vy)⟩ := by
  simp [GravityMath.clampSpeed, h0, h1, h2]

lemma clampSpeed_of_mid {vx vy vmin vmax : ℝ}
    (h0 : ¬ GravityMath.calcSpeed vx vy = 0)
    (h1 : ¬ GravityMath.calcSpeed vx vy < vmin)
    (h2 : ¬ GravityMath.calcSpeed vx vy > vmax) :
    GravityMath.clampSpeed vx vy vmin vmax = ⟨vx, vy⟩ := by
  simp [GravityMath.clampSpeed, h0, h1, h2]

/-- C2: every parameter setter validates its argument against the documented
range and is a no-op (state unchanged, hence every getter unchanged, and for
`setBlackHole` no black-hole field changed) outside it; inside it, the setter
stores exactly the documented transformed value: G as `max(g, 0.1)`,
posDamping as `damp / 10000`, `setVmin`/`setVmax` with their documented mutual
adjustment, and all others as given. -/
theorem setters_validate_and_store :
    (∀ (s : Gravity) (g : ℝ), setG s g =
      if 0 ≤ g ∧ g ≤ 10 then { s with G := max g 0.1 } else s) ∧
    (∀ (s : Gravity) (d : ℝ), setDt s d =
      if 0 < d ∧ d ≤ 0.1 then { s with dt := d } else s) ∧
    (∀ (s : Gravity) (d : ℝ), setPosDamping s d =
      if 0 ≤ d ∧ d ≤ 0.1 then { s with pos_damping := d / 10000 } else s) ∧
    (∀ (s : Gravity) (d : ℝ), setVelDamping s d =
      if 0 ≤ d ∧ d ≤ 0.5 then { s with vel_damping := d } else s) ∧
    (∀ (s : Gravity) (x : ℝ), setSoftening s x =
      if 0 ≤ x ∧ x ≤ 5 then { s with softening := x } else s) ∧
    (∀ (s : Gravity) (v : ℝ), setVmin s v =
      if 0.1 ≤ v ∧ v ≤ 1000 then { s with vmin := v, vmax := max s.vmax v } else s) ∧
    (∀ (s : Gravity) (v : ℝ), setVmax s v =
      if 1 ≤ v ∧ v ≤ 10000 then { s with vmax := v, vmin := min s.vmin v } else s) ∧
    (∀ (s : Gravity) (n : ℕ), setBodyCount s n =
      if 2 ≤ n ∧ n ≤ 10 then { s with body_count := n } else s) ∧
    (∀ (s : Gravity) (i : ℕ) (m : ℝ), setBodyMass s i m =
      if i ≤ 9 ∧ 0.1 ≤ m ∧ m ≤ 30 then
        { s with bodies := Function.update s.bodies i ({ s.bodies i with mass := m }) }
      else s) ∧
    (∀ (s : Gravity) (x y m : ℝ), setBlackHole s x y m =
      if (-500 ≤ x ∧ x ≤ 500) ∧ (-500 ≤ y ∧ y ≤ 500) ∧ (0 ≤ m ∧ m ≤ 10000) then
        { s with blackHole := ⟨x, y, 0, 0, 0, 0, m⟩ }
      else s) := by
  refine ⟨fun s g => ?_, fun s d => ?_, fun s d => ?_, fun s d => ?_,
    fun s x => ?_, fun s v => ?_, fun s v => ?_, fun s n => ?_,
    fun s i m => ?_, fun s x y m => ?_⟩
  · by_cases hq : 0 ≤ g ∧ g ≤ 10
    · rw [if_pos hq]
      unfold setG
      rw [if_neg (by push_neg; constructor <;> linarith [hq.1, hq.2])]
      have hmax : (if g < 0.1 then (0.1 : ℝ) else g) = max g 0.1 := by
        rcases lt_or_le g 0.1 with h | h
        · rw [if_pos h, max_eq_right h.le]
        · rw [if_neg (not_lt.mpr h), max_eq_left h]
      rw [hmax]
    · rw [if_neg hq]
      unfold setG
      rcases not_and_or.mp hq with h | h
      · exact if_pos (Or.inl (by linarith [not_le.mp h]))
      · exact if_pos (Or.inr (by linarith [not_le.mp h]))
  · by_cases hq : 0 < d ∧ d ≤ 0.1
    · rw [if_pos hq]
      unfold setDt
      rw [if_neg (by push_neg; constructor <;> linarith [hq.1, hq.2])]
    · rw [if_neg hq]
      unfold setDt
      rcases not_and_or.mp hq with h | h
      · exact if_pos (Or.inl (by linarith [not_lt.mp h]))
      · exact if_pos (Or.inr (by linarith [not_le.mp h]))
  · by_cases hq : 0 ≤ d ∧ d ≤ 0.1
    · rw [if_pos hq]
      unfold setPosDamping
      rw [if_neg (by push_neg; constructor <;> linarith [hq.1, hq.2])]
    · rw [if_neg hq]
      unfold setPosDamping
      rcases not_and_or.mp hq with h | h
      · exact if_pos (Or.inl (by linarith [not_le.mp h]))
      · exact if_pos (Or.inr (by linarith [not_le.mp h]))
  · by_cases hq : 0 ≤ d ∧ d ≤ 0.5
    · rw [if_pos hq]
      unfold setVelDamping
      rw [if_neg (by push_neg; constructor <;> linarith [hq.1, hq.2])]
    · rw [if_neg hq]
      unfold setVelDamping
      rcases not_and_or.mp hq with h | h
      · exact if_pos (Or.inl (by linarith [not_le.mp h]))
      · exact if_pos (Or.inr (by linarith [not_le.mp h]))
  · by_cases hq : 0 ≤ x ∧ x ≤ 5
    · rw [if_pos hq]
      unfold setSoftening
      rw [if_neg (by push_neg; constructor <;> linarith [hq.1, hq.2])]
    · rw [if_neg hq]
      unfold setSoftening
      rcases not_and_or.mp hq with h | h
      · exact if_pos (Or.inl (by linarith [not_le.mp h]))
      · exact if_pos (Or.inr (by linarith [not_le.mp h]))
  · by_cases hq : 0.1 ≤ v ∧ v ≤ 1000
    · rw [if_pos hq]
      unfold setVmin
      rw [if_neg (by push_neg; constructor <;> linarith [hq.1, hq.2])]
      dsimp only
      by_cases hv : s.vmax < v
      · rw [if_pos hv, max_eq_right hv.le]
      · rw [if_neg hv, max_eq_left (not_lt.mp hv)]
    · rw [if_neg hq]
      unfold setVmin
      rcases not_and_or.mp hq with h | h
      · exact if_pos (Or.inl (by linarith [not_le.mp h]))
      · exact if_pos (Or.inr (by linarith [not_le.mp h]))
  · by_cases hq : 1 ≤ v ∧ v ≤ 10000
    · rw [if_pos hq]
      unfold setVmax
      rw [if_neg (by push_neg; constructor <;> linarith [hq.1, hq.2])]
      dsimp only
      by_cases hv : s.vmin > v
      · rw [if_pos hv, min_eq_right hv.le]
      · rw [if_neg hv, min_eq_left (not_lt.mp hv)]
    · rw [if_neg hq]
      unfold setVmax
      rcases not_and_or.mp hq with h | h
      · exact if_pos (Or.inl (by linarith [not_le.mp h]))
      · exact if_pos (Or.inr (by linarith [not_le.mp h]))
  · by_cases hq : 2 ≤ n ∧ n ≤ 10
    · rw [if_pos hq]
      unfold setBodyCount
      rw [if_neg (by omega)]
    · rw [if_neg hq]
      unfold setBodyCount
      rw [if_pos (by omega)]
  · by_cases hq : i ≤ 9 ∧ 0.1 ≤ m ∧ m ≤ 30
    · rw [if_pos hq]
      exact setBodyMass_in s hq.1
        (by push_neg; constructor <;> linarith [hq.2.1, hq.2.2])
    · rw [if_neg hq]
      unfold setBodyMass
      by_cases hi : i > 9
      · rw [if_pos hi]
      · rw [if_neg hi]
        have hm : ¬(0.1 ≤ m ∧ m ≤ 30) := by
          intro hm'
          exact hq ⟨by omega, hm'⟩
        rcases not_and_or.mp hm with h | h
        · exact if_pos (Or.inl (by linarith [not_le.mp h]))
        · exact if_pos (Or.inr (by linarith [not_le.mp h]))
  · by_cases hq : (-500 ≤ x ∧ x ≤ 500) ∧ (-500 ≤ y ∧ y ≤ 500) ∧ (0 ≤ m ∧ m ≤ 10000)
    · rw [if_pos hq]
      unfold setBlackHole
      rw [if_neg (by push_neg; constructor <;> linarith [hq.1.1, hq.1.2]),
        if_neg (by push_neg; constructor <;> linarith [hq.2.1.1, hq.2.1.2]),
        if_neg (by push_neg; constructor <;> linarith [hq.2.2.1, hq.2.2.2])]
    · rw [if_neg hq]
      unfold setBlackHole
      by_cases h1 : x < -500 ∨ x > 500
      · rw [if_pos h1]
      · rw [if_neg h1]
        by_cases h2 : y < -500 ∨ y > 500
        · rw [if_pos h2]
        · rw [if_neg h2]
          simp only [not_or, not_lt] at h1 h2
          have hm : ¬(0 ≤ m ∧ m ≤ 10000) := by
            intro hm'
            exact hq ⟨h1, h2, hm'⟩
          rcases not_and_or.mp hm with h | h
          · exact if_pos (Or.inl (by linarith [not_le.mp h]))
          · exact if_pos (Or.inr (by linarith [not_le.mp h]))

lemma applyOp_vm_pres (s : Gravity) (op : Op) (h : s.vmin ≤ s.vmax) :
    (applyOp s op).vmin ≤ (applyOp s op).vmax := by
  cases op with
  | setG g => simpa [applyOp] using h
  | setDt d => simpa [applyOp] using h
  | setPosDamping d => simpa [applyOp] using h
  | setVelDamping d => simpa [applyOp] using h
  | setSoftening x => simpa [applyOp] using h
  | setVmin v =>
    show (setVmin s v).vmin ≤ (setVmin s v).vmax
    unfold setVmin
    split
    · exact h
    · dsimp only
      split
      · exact le_refl v
      · exact le_of_not_lt (by assumption)
  | setVmax v =>
    show (setVmax s v).vmin ≤ (setVmax s v).vmax
    unfold setVmax
    split
    · exact h
    · dsimp only
      split
      · exact le_refl v
      · exact le_of_not_lt (by assumption)
  | setBodyCount n => simpa [applyOp] using h
  | setBodyMass i m => simpa [applyOp] using h
  | setBlackHole x y m => simpa [applyOp] using h
  | setBody i x y vx vy m => simpa [applyOp] using h
  | loadPreset i =>
    show (loadPreset s i).vmin ≤ (loadPreset s i).vmax
    have h1 := congrArg Prod.fst (loadPreset_vm s i)
    have h2 := congrArg Prod.snd (loadPreset_vm s i)
    dsimp only at h1 h2
    rw [h1, h2]
    exact h
  | reset =>
    show (reset s).vmin ≤ (reset s).vmax
    have h1 := congrArg Prod.fst (reset_vm s)
    have h2 := congrArg Prod.snd (reset_vm s)
    dsimp only at h1 h2
    rw [h1, h2]
    exact h
  | nudge => exact h
  | simulate =>
    show (simulate s).vmin ≤ (simulate s).vmax
    rw [simulate_vmin, simulate_vmax]
    exact h

/-- C3: `vmin ≤ vmax` is established by every successful (in-range) call to
`setVmin` or `setVmax` — `setVmin` raising `vmax` to match when needed and
`setVmax` lowering `vmin` — and the invariant is preserved by every other
public operation of the engine. -/
theorem vmin_le_vmax_invariant :
    (∀ (s : Gravity) (v : ℝ), 0.1 ≤ v → v ≤ 1000 →
      (setVmin s v).vmin ≤ (setVmin s v).vmax ∧ (setVmin s v).vmin = v ∧
      (setVmin s v).vmax = max s.vmax v) ∧
    (∀ (s : Gravity) (v : ℝ), 1 ≤ v → v ≤ 10000 →
      (setVmax s v).vmin ≤ (setVmax s v).vmax ∧ (setVmax s v).vmax = v ∧
      (setVmax s v).vmin = min s.vmin v) ∧
    (∀ (s : Gravity) (op : Op), s.vmin ≤ s.vmax →
      (applyOp s op).vmin ≤ (applyOp s op).vmax) := by
  refine ⟨fun s v h1 h2 => ?_, fun s v h1 h2 => ?_, applyOp_vm_pres⟩
  · have he : setVmin s v = { s with vmin := v, vmax := max s.vmax v } := by
      unfold setVmin
      rw [if_neg (by push_neg; constructor <;> linarith)]
      dsimp only
      by_cases hv : s.vmax < v
      · rw [if_pos hv, max_eq_right hv.le]
      · rw [if_neg hv, max_eq_left (not_lt.mp hv)]
    rw [he]
    exact ⟨le_max_right _ _, rfl, rfl⟩
  · have he : setVmax s v = { s with vmax := v, vmin := min s.vmin v } := by
      unfold setVmax
      rw [if_neg (by push_neg; constructor <;> linarith)]
      dsimp only
      by_cases hv : s.vmin > v
      · rw [if_pos hv, min_eq_right hv.le]
      · rw [if_neg hv, min_eq_left (not_lt.mp hv)]
    rw [he]
    exact ⟨min_le_right _ _, rfl, rfl⟩

/-- Witness for C3 at concrete inputs: `setVmin` to 7 on the demo state (with
`vmax = 5`) establishes the invariant, and a `simulate` preserves it. -/
theorem vmin_le_vmax_invariant_witness :
    ((0.1 : ℝ) ≤ 7 ∧ (7 : ℝ) ≤ 1000 ∧ demoState.vmin ≤ demoState.vmax) ∧
    ((setVmin demoState 7).vmin ≤ (setVmin demoState 7).vmax ∧
      (setVmin demoState 7).vmin = 7 ∧
      (setVmin demoState 7).vmax = max demoState.vmax 7) ∧
    (applyOp demoState Op.simulate).vmin ≤ (applyOp demoState Op.simulate).vmax :=
  ⟨⟨by norm_num, by norm_num, by norm_num [demoState]⟩,
   vmin_le_vmax_invariant.1 demoState 7 (by norm_num) (by norm_num),
   vmin_le_vmax_invariant.2.2 demoState Op.simulate (by norm_num [demoState])⟩

/-- C5: a single `simulate` call mutates only the live bodies (indices below
`body_count`) and the nudge bookkeeping: every initial-condition record, every
body at an index at or beyond `body_count`, the black hole and every scalar
parameter is unchanged by the call. -/
theorem simulate_frame :
    ∀ s : Gravity,
      (simulate s).initBodies = s.initBodies ∧
      (simulate s).blackHole = s.blackHole ∧
      (simulate s).G = s.G ∧
      (simulate s).dt = s.dt ∧
      (simulate s).pos_damping = s.pos_damping ∧
      (simulate s).vel_damping = s.vel_damping ∧
      (simulate s).softening = s.softening ∧
      (simulate s).vmin = s.vmin ∧
      (simulate s).vmax = s.vmax ∧
      (simulate s).body_count = s.body_count ∧
      ∀ j, s.body_count ≤ j → (simulate s).bodies j = s.bodies j :=
  fun s => simulate_onlyLive s

/-- Witness for C5: on the demo state (two active bodies), a step leaves the
inert slot 5 and the parameters untouched. -/
theorem simulate_frame_witness :
    demoState.body_count ≤ 5 ∧
    (simulate demoState).G = demoState.G ∧
    (simulate demoState).bodies 5 = demoState.bodies 5 :=
  ⟨by norm_num [demoState], (simulate_frame demoState).2.2.1,
   (simulate_frame demoState).2.2.2.2.2.2.2.2.2.2 5 (by norm_num [demoState])⟩

/-- C6: a pair whose softened squared distance is ≤ 0 or below 1e-4 is skipped
and contributes exactly zero; a pair at identical coordinates contributes
exactly zero whatever the masses; whenever a pair is not skipped its softened
squared distance is at least 1e-4, so the divisor `sqrt(distSqr)` of
`computeAcceleration` is strictly positive (the real-valued idealisation of
"no division by zero, no NaN/Inf"); and on a two-body system with the bodies
at identical coordinates and an inactive black hole, `computeAcceleration`
returns exactly (0, 0). -/
theorem computeAcceleration_identical_guard :
    (∀ (G soft : ℝ) (t o : Body) (acc : ℝ × ℝ),
      softDistSqr soft t o ≤ 0.0 ∨ softDistSqr soft t o < 0.0001 →
        pairAccum G soft t o acc = acc) ∧
    (∀ (G soft : ℝ) (t o : Body) (acc : ℝ × ℝ),
      o.x = t.x → o.y = t.y → pairAccum G soft t o acc = acc) ∧
    (∀ (soft : ℝ) (t o : Body),
      ¬(softDistSqr soft t o ≤ 0.0 ∨ softDistSqr soft t o < 0.0001) →
        0 < Real.sqrt (softDistSqr soft t o)) ∧
    (∀ s : Gravity, s.body_count = 2 → s.blackHole.mass = 0 →
      (s.bodies 1).x = (s.bodies 0).x → (s.bodies 1).y = (s.bodies 0).y →
      computeAcceleration s 0 = ⟨0, 0⟩) := by
  refine ⟨fun G soft t o acc h => ?_, fun G soft t o acc hx hy =>
    pairAccum_identical G soft t o acc hx hy, fun soft t o h => ?_,
    fun s hbc hbh hx hy => ?_⟩
  · unfold pairAccum
    dsimp only
    rw [if_pos h]
  · push_neg at h
    exact Real.sqrt_pos.mpr (lt_of_lt_of_le (by norm_num) h.2)
  · have hpa := pairAccum_identical s.G s.softening (s.bodies 0) (s.bodies 1)
      (0, 0) hx hy
    unfold computeAcceleration
    rw [hbc]
    rw [show List.range (2 + 1) = [0, 1, 2] from rfl]
    simp [List.foldl_cons, List.foldl_nil, hbh, hpa]
    have h0 : (0 : ℝ × ℝ) = ((0, 0) : ℝ × ℝ) := rfl
    constructor
    · rw [h0, hpa]
    · rw [h0, hpa]

/-- Witness for C6: a concrete coincident zero-mass pair contributes zero,
and the skip guard fires on a coincident pair with zero softening. -/
theorem computeAcceleration_identical_guard_witness :
    (Body.zero.x = Body.zero.x ∧ Body.zero.y = Body.zero.y ∧
      pairAccum 1 0 Body.zero Body.zero (0, 0) = (0, 0)) ∧
    (softDistSqr 0 Body.zero Body.zero ≤ 0.0 ∧
      pairAccum 2 0 Body.zero Body.zero (3, 4) = (3, 4)) :=
  ⟨⟨rfl, rfl, computeAcceleration_identical_guard.2.1 1 0 Body.zero Body.zero
      (0, 0) rfl rfl⟩,
   ⟨by norm_num [softDistSqr, GravityMath.calcRelativePositionVector,
      GravityMath.calcEuclideanDistance],
    computeAcceleration_identical_guard.1 2 0 Body.zero Body.zero (3, 4)
      (Or.inl (by norm_num [softDistSqr, GravityMath.calcRelativePositionVector,
        GravityMath.calcEuclideanDistance]))⟩⟩

lemma resetBodies_zero (s : Gravity) {j : ℕ} (hj : j < 10) :
    (resetBodies s).bodies j = Body.zero ∧ (resetBodies s).initBodies j = Body.zero := by
  unfold resetBodies
  have step : ∀ (t : Gravity) (i : ℕ),
      t.bodies j = Body.zero ∧ t.initBodies j = Body.zero →
      (zeroStep t i).bodies j = Body.zero ∧ (zeroStep t i).initBodies j = Body.zero := by
    intro t i ht
    unfold zeroStep
    dsimp only
    by_cases hji : j = i
    · subst hji
      rw [Function.update_same, Function.update_same]
      exact ⟨rfl, rfl⟩
    · rw [Function.update_noteq hji, Function.update_noteq hji]
      exact ht
  have pres : ∀ (l : List ℕ) (t : Gravity),
      t.bodies j = Body.zero ∧ t.initBodies j = Body.zero →
      (l.foldl zeroStep t).bodies j = Body.zero ∧
      (l.foldl zeroStep t).initBodies j = Body.zero := by
    intro l
    induction l with
    | nil => exact fun t h => h
    | cons b l ih =>
      intro t h
      rw [List.foldl_cons]
      exact ih _ (step t b h)
  have mem : ∀ (l : List ℕ) (t : Gravity), j ∈ l →
      (l.foldl zeroStep t).bodies j = Body.zero ∧
      (l.foldl zeroStep t).initBodies j = Body.zero := by
    intro l
    induction l with
    | nil => exact fun t h => absurd h (List.not_mem_nil j)
    | cons a l ih =>
      intro t hmem
      rw [List.foldl_cons]
      by_cases hjl : j ∈ l
      · exact ih _ hjl
      · have hja : j = a := by
          rcases List.mem_cons.mp hmem with h | h
          · exact h
          · exact absurd h hjl
        refine pres l _ ?_
        subst hja
        unfold zeroStep
        dsimp only
        rw [Function.update_same, Function.update_same]
        exact ⟨rfl, rfl⟩
  exact mem (List.range 10) s (List.mem_range.mpr hj)

/-- C7: `loadPreset(i)` behaves identically to `loadPreset` at the index
clamped into [1, 14] (out-of-range indices are silently clamped to the
nearest boundary, never rejected), and every call first zeroes all ten body
and initial-body records — `loadPreset` is exactly the selected case applied
to the `resetBodies`-zeroed state. -/
theorem loadPreset_clamps_and_zeroes :
    (∀ (s : Gravity) (i : ℤ), loadPreset s i = loadPreset s (max 1 (min 14 i))) ∧
    (∀ (s : Gravity) (i : ℤ), loadPreset s i =
      applyPresetCase ((max 1 (min 14 i)) - 1).toNat (resetBodies s)) ∧
    (∀ (s : Gravity) (j : ℕ), j < 10 →
      (resetBodies s).bodies j = Body.zero ∧
      (resetBodies s).initBodies j = Body.zero) := by
  have hclamp : ∀ i : ℤ,
      (if i < 1 then (1 : ℤ) else if i > 14 then 14 else i) = max 1 (min 14 i) := by
    intro i
    split_ifs with h1 h2 <;> omega
  refine ⟨fun s i => ?_, fun s i => ?_, fun s j hj => resetBodies_zero s hj⟩
  · unfold loadPreset
    dsimp only
    rw [hclamp i, hclamp (max 1 (min 14 i)),
      show max 1 (min 14 (max 1 (min 14 i))) = max 1 (min 14 i) by omega]
  · unfold loadPreset
    dsimp only
    rw [hclamp i]

/-- Witness for C7: index 99 is clamped to 14, and slot 3 is zeroed. -/
theorem loadPreset_clamps_and_zeroes_witness :
    (3 : ℕ) < 10 ∧
    loadPreset demoState 99 = loadPreset demoState (max 1 (min 14 99)) ∧
    (resetBodies demoState).bodies 3 = Body.zero :=
  ⟨by norm_num, loadPreset_clamps_and_zeroes.1 demoState 99,
   (loadPreset_clamps_and_zeroes.2.2 demoState 3 (by norm_num)).1⟩

set_option maxHeartbeats 1600000 in
lemma loadPreset8_params (s : Gravity) :
    getBodyCount (loadPreset s 8) = 3 ∧ getG (loadPreset s 8) = 1.0 ∧
    getDt (loadPreset s 8) = 0.005 := by
  unfold loadPreset
  dsimp only
  have hp : ((if (8 : ℤ) < 1 then (1 : ℤ) else if (8 : ℤ) > 14 then (14 : ℤ)
      else (8 : ℤ)) - 1).toNat = 7 := by decide
  rw [hp, show ∀ t, applyPresetCase 7 t = presetCase7 t from
    fun t => by simp only [applyPresetCase]]
  unfold presetCase7
  dsimp only
  rw [setG_in _ (by norm_num)]
  rw [setDt_in _ (by norm_num)]
  rw [setSoftening_in _ (by norm_num)]
  rw [setPosDamping_in _ (by norm_num)]
  rw [setVelDamping_in _ (by norm_num)]
  rw [setBodyCount_in _ (by norm_num)]
  rw [show List.range' 3 7 = [3, 4, 5, 6, 7, 8, 9] from rfl]
  simp only [List.foldl_cons, List.foldl_nil]
  refine ⟨?_, ?_, ?_⟩ <;>
    simp [getBodyCount, getG, getDt] <;> norm_num

set_option maxHeartbeats 1600000 in
lemma loadPreset8_initBody0 (s : Gravity) :
    getInitBody (loadPreset s 8) 0 = ⟨0, 0, 0.347111, 0.532728, 0, 0, 1⟩ := by
  unfold loadPreset
  dsimp only
  have hp : ((if (8 : ℤ) < 1 then (1 : ℤ) else if (8 : ℤ) > 14 then (14 : ℤ)
      else (8 : ℤ)) - 1).toNat = 7 := by decide
  rw [hp, show ∀ t, applyPresetCase 7 t = presetCase7 t from
    fun t => by simp only [applyPresetCase]]
  unfold presetCase7
  dsimp only
  rw [show List.range' 3 7 = [3, 4, 5, 6, 7, 8, 9] from rfl]
  simp only [List.foldl_cons, List.foldl_nil]
  simp [getInitBody, setBody_initBodies_ne, setBody_initBodies_self]

/-- C8: after `loadPreset(8)` (the figure-eight preset), the body count is 3,
G is 1.0, dt is 0.005, and body 0's initial record holds position (0, 0) and
velocity (0.347111, 0.532728). -/
theorem loadPreset_figure_eight :
    ∀ s : Gravity,
      getBodyCount (loadPreset s 8) = 3 ∧
      getG (loadPreset s 8) = 1.0 ∧
      getDt (loadPreset s 8) = 0.005 ∧
      (getInitBody (loadPreset s 8) 0).x = 0 ∧
      (getInitBody (loadPreset s 8) 0).y = 0 ∧
      (getInitBody (loadPreset s 8) 0).vx = 0.347111 ∧
      (getInitBody (loadPreset s 8) 0).vy = 0.532728 := by
  intro s
  refine ⟨(loadPreset8_params s).1, (loadPreset8_params s).2.1,
    (loadPreset8_params s).2.2, ?_, ?_, ?_, ?_⟩ <;>
    rw [loadPreset8_initBody0 s]

/-- Counterexample to C9 as stated: the claim quantifies over every bound pair
with `vmin ≤ vmax`.  At `vmin = vmax = -1` (where `-1 ≤ -1`) the vector
(1, 0) has speed 1 > vmax, is scaled by the negative factor -1, and a second
application flips it back: `clampSpeed` twice gives (1, 0) while once gives
(-1, 0), so it is not idempotent there (and the resulting magnitude 1 does
not lie within [-1, -1] either). -/
theorem clampSpeed_idem_cex :
    ((-1 : ℝ) ≤ (-1 : ℝ)) ∧
    GravityMath.clampSpeed (GravityMath.clampSpeed 1 0 (-1) (-1)).x
        (GravityMath.clampSpeed 1 0 (-1) (-1)).y (-1) (-1)
      ≠ GravityMath.clampSpeed 1 0 (-1) (-1) := by
  have hs1 : GravityMath.calcSpeed 1 0 = 1 := by
    unfold GravityMath.calcSpeed
    rw [show (1 : ℝ) * 1 + 0 * 0 = 1 by norm_num, Real.sqrt_one]
  have h1 : GravityMath.clampSpeed 1 0 (-1) (-1) = ⟨-1, 0⟩ := by
    rw [clampSpeed_of_gt (by rw [hs1]; norm_num) (by rw [hs1]; norm_num)
      (by rw [hs1]; norm_num)]
    rw [Vector.mk.injEq]
    constructor <;> (rw [hs1]; norm_num)
  have hs2 : GravityMath.calcSpeed (-1) 0 = 1 := by
    unfold GravityMath.calcSpeed
    rw [show (-1 : ℝ) * (-1) + 0 * 0 = 1 by norm_num, Real.sqrt_one]
  have h2 : GravityMath.clampSpeed (-1) 0 (-1) (-1) = ⟨1, 0⟩ := by
    rw [clampSpeed_of_gt (by rw [hs2]; norm_num) (by rw [hs2]; norm_num)
      (by rw [hs2]; norm_num)]
    rw [Vector.mk.injEq]
    constructor <;> (rw [hs2]; norm_num)
  refine ⟨le_refl _, ?_⟩
  rw [h1]
  dsimp only
  rw [h2]
  intro h
  have := congrArg Vector.x h
  dsimp only at this
  norm_num at this

/-- C9 amended: with the additional hypothesis `0 ≤ vmax` (which always holds
for the engine's reachable bounds), `clampSpeed` is idempotent; a vector of
exactly zero speed passes through unchanged; and any other vector is scaled
uniformly by some factor, with resulting magnitude within [vmin, vmax]. -/
theorem clampSpeed_idem_amended :
    ∀ vx vy vmin vmax : ℝ, vmin ≤ vmax → 0 ≤ vmax →
      (GravityMath.clampSpeed (GravityMath.clampSpeed vx vy vmin vmax).x
          (GravityMath.clampSpeed vx vy vmin vmax).y vmin vmax =
        GravityMath.clampSpeed vx vy vmin vmax) ∧
      (GravityMath.calcSpeed vx vy = 0 →
        GravityMath.clampSpeed vx vy vmin vmax = ⟨vx, vy⟩) ∧
      (GravityMath.calcSpeed vx vy ≠ 0 →
        (∃ c : ℝ, GravityMath.clampSpeed vx vy vmin vmax = ⟨vx * c, vy * c⟩) ∧
        vmin ≤ GravityMath.calcSpeed (GravityMath.clampSpeed vx vy vmin vmax).x
            (GravityMath.clampSpeed vx vy vmin vmax).y ∧
        GravityMath.calcSpeed (GravityMath.clampSpeed vx vy vmin vmax).x
            (GravityMath.clampSpeed vx vy vmin vmax).y ≤ vmax) := by
  intro vx vy vmin vmax hmm h0max
  by_cases h0 : GravityMath.calcSpeed vx vy = 0
  · refine ⟨?_, fun _ => clampSpeed_of_zero h0, fun hne => absurd h0 hne⟩
    rw [clampSpeed_of_zero h0]
    dsimp only
    exact clampSpeed_of_zero h0
  · have hsp : 0 < GravityMath.calcSpeed vx vy :=
      lt_of_le_of_ne (calcSpeed_nonneg vx vy) (Ne.symm h0)
    by_cases h1 : GravityMath.calcSpeed vx vy < vmin
    · have hm0 : 0 < vmin := lt_trans hsp h1
      have hr := @clampSpeed_of_lt vx vy vmin vmax h0 h1
      have hspeed : GravityMath.calcSpeed
          (vx * (vmin / GravityMath.calcSpeed vx vy))
          (vy * (vmin / GravityMath.calcSpeed vx vy)) = vmin := by
        rw [calcSpeed_scale, abs_of_pos (div_pos hm0 hsp), div_mul_cancel₀ _ h0]
      refine ⟨?_, fun hz => absurd hz h0, fun _ => ⟨⟨_, hr⟩, ?_, ?_⟩⟩
      · rw [hr]
        dsimp only
        exact clampSpeed_of_mid (by rw [hspeed]; exact ne_of_gt hm0)
          (by rw [hspeed]; exact lt_irrefl vmin)
          (by rw [hspeed]; exact not_lt.mpr hmm)
      · rw [hr]
        dsimp only
        rw [hspeed]
      · rw [hr]
        dsimp only
        rw [hspeed]
        exact hmm
    · by_cases h2 : GravityMath.calcSpeed vx vy > vmax
      · have hr := clampSpeed_of_gt h0 h1 h2
        have hspeed : GravityMath.calcSpeed
            (vx * (vmax / GravityMath.calcSpeed vx vy))
            (vy * (vmax / GravityMath.calcSpeed vx vy)) = vmax := by
          rw [calcSpeed_scale, abs_of_nonneg (div_nonneg h0max hsp.le),
            div_mul_cancel₀ _ h0]
        refine ⟨?_, fun hz => absurd hz h0, fun _ => ⟨⟨_, hr⟩, ?_, ?_⟩⟩
        · rw [hr]
          dsimp only
          by_cases hv0 : GravityMath.calcSpeed
              (vx * (vmax / GravityMath.calcSpeed vx vy))
              (vy * (vmax / GravityMath.calcSpeed vx vy)) = 0
          · exact clampSpeed_of_zero hv0
          · exact clampSpeed_of_mid hv0
              (by rw [hspeed]; exact not_lt.mpr hmm)
              (by rw [hspeed]; exact lt_irrefl vmax)
        · rw [hr]
          dsimp only
          rw [hspeed]
          exact hmm
        · rw [hr]
          dsimp only
          rw [hspeed]
      · have hr := clampSpeed_of_mid h0 h1 h2
        refine ⟨?_, fun hz => absurd hz h0,
          fun _ => ⟨⟨1, by rw [hr, Vector.mk.injEq]; constructor <;> rw [mul_one]⟩,
            ?_, ?_⟩⟩
        · rw [hr]
          dsimp only
          exact hr
        · rw [hr]
          dsimp only
          exact not_lt.mp h1
        · rw [hr]
          dsimp only
          exact not_lt.mp h2

/-- Witness for the amended C9 at (3, 4) with bounds [1, 5]: speed 5 is in
range, so both applications leave the vector unchanged. -/
theorem clampSpeed_idem_amended_witness :
    ((1 : ℝ) ≤ 5 ∧ (0 : ℝ) ≤ 5) ∧
    GravityMath.clampSpeed (GravityMath.clampSpeed 3 4 1 5).x
        (GravityMath.clampSpeed 3 4 1 5).y 1 5 = GravityMath.clampSpeed 3 4 1 5 :=
  ⟨⟨by norm_num, by norm_num⟩,
   (clampSpeed_idem_amended 3 4 1 5 (by norm_num) (by norm_num)).1⟩

/-- Counterexample to C1 as stated: in the reachable state of the
counterexample trace, the last `setBody` for slot 0 computed and stored the
starting acceleration 0.0048 (body 1 then stood at (3, 4), distance 5), but
`reset()` recomputes slot 0's acceleration against body 1's current position
(6, 8), obtaining 0.0012 — not the value `setBody` computed at configuration
time. -/
theorem reset_setBody_acceleration_cex :
    Reachable cexState ∧
    (cexState.bodies 0).ax = 0.0048 ∧
    cexState.initBodies 0 = ⟨0, 0, 0, 0, 0, 0, 1⟩ ∧
    ((reset cexState).bodies 0).ax = 0.0012 ∧
    ((reset cexState).bodies 0).ax ≠ (cexState.bodies 0).ax :=
  ⟨⟨cexRand, cexOps, rfl⟩, cexState_ax, cexState_init0, cexState_reset_ax,
   by rw [cexState_reset_ax, cexState_ax]; norm_num⟩

/-- C1 amended: `reset()` restores every body's position and velocity exactly
from its initial-condition record (the values last written by `setBody`),
leaves the records themselves unchanged, and then recomputes the body's
acceleration with the same `initBody` procedure — but evaluated against the
in-progress array (slots below `i` already restored, slots above `i` still
pre-reset), so the recomputed acceleration need not equal the one `setBody`
computed at configuration time. -/
theorem reset_restores_amended :
    ∀ (s : Gravity) (i : ℕ), i < 10 →
      ((reset s).bodies i).x = (s.initBodies i).x ∧
      ((reset s).bodies i).y = (s.initBodies i).y ∧
      ((reset s).bodies i).vx = (s.initBodies i).vx ∧
      ((reset s).bodies i).vy = (s.initBodies i).vy ∧
      (reset s).initBodies = s.initBodies ∧
      ((reset s).bodies i).ax =
        ((resetStep ((List.range i).foldl resetStep s) i).bodies i).ax ∧
      ((reset s).bodies i).ay =
        ((resetStep ((List.range i).foldl resetStep s) i).bodies i).ay := by
  intro s i h
  have hd := reset_decomp s h
  have hres := resetStep_restores ((List.range i).foldl resetStep s) i
  have hinit : ((List.range i).foldl resetStep s).initBodies = s.initBodies :=
    foldl_resetStep_initBodies _ s
  rw [hd]
  refine ⟨?_, ?_, ?_, ?_, reset_initBodies s, rfl, rfl⟩
  · rw [hres.1, hinit]
  · rw [hres.2.1, hinit]
  · rw [hres.2.2.1, hinit]
  · rw [hres.2.2.2, hinit]

/-- Witness for the amended C1 on the demo state at slot 0. -/
theorem reset_restores_amended_witness :
    (0 : ℕ) < 10 ∧
    ((reset demoState).bodies 0).x = (demoState.initBodies 0).x ∧
    (reset demoState).initBodies = demoState.initBodies :=
  ⟨by norm_num, (reset_restores_amended demoState 0 (by norm_num)).1,
   (reset_restores_amended demoState 0 (by norm_num)).2.2.2.2.1⟩

/-- Counterexample to C4 as stated: the claim says nudge mode stays armed
across the next 20 `simulate()` calls and disarms only after the 20th.  On
the freshly constructed engine (10 active bodies) the shared counter advances
once per body, so the mode is already disarmed after three calls. -/
theorem nudge_disarm_cex :
    Reachable (simulate (simulate (simulate (nudge (gravityInit cexRand))))) ∧
    (simulate (simulate (simulate (nudge (gravityInit cexRand))))).nudge_mode
      = false := by
  constructor
  · exact ⟨cexRand, [Op.nudge, Op.simulate, Op.simulate, Op.simulate], rfl⟩
  · have hf := gravityInit_fields cexRand
    have hn_nb : nudgeBook (nudge (gravityInit cexRand)) = (true, 0) := by
      unfold nudgeBook nudge
      dsimp only
      rw [hf.2.2.2.2.2.2.2.2.2.2.1]
    have hn_bc : (nudge (gravityInit cexRand)).body_count = 10 :=
      hf.2.2.2.2.2.2.2.2.1
    have e1 : nudgeBook (simulate (nudge (gravityInit cexRand)))
        = nudgeTick^[10] (true, 0) := by
      rw [simulate_nudgeBook, hn_bc, hn_nb]
    have b1 : (simulate (nudge (gravityInit cexRand))).body_count = 10 := by
      rw [simulate_body_count]
      exact hn_bc
    have e2 : nudgeBook (simulate (simulate (nudge (gravityInit cexRand))))
        = nudgeTick^[10] (nudgeTick^[10] (true, 0)) := by
      rw [simulate_nudgeBook, b1, e1]
    have b2 : (simulate (simulate (nudge (gravityInit cexRand)))).body_count = 10 := by
      rw [simulate_body_count]
      exact b1
    have e3 : nudgeBook (simulate (simulate (simulate (nudge (gravityInit cexRand)))))
        = nudgeTick^[10] (nudgeTick^[10] (nudgeTick^[10] (true, 0))) := by
      rw [simulate_nudgeBook, b2, e2]
    have hfst := congrArg Prod.fst e3
    dsimp only [nudgeBook] at hfst
    rw [hfst]
    decide

/-- C4 amended: `nudge()` arms the mode; the nudge bookkeeping of one
`simulate` call advances by one `nudgeTick` per active body (not per call);
starting from a freshly armed counter at 0, the mode stays armed through the
first 20 per-body ticks and the 21st tick disarms it, leaving the counter at
1; and while the mode is armed, the per-body velocity update overrides the
body's velocity — its result does not depend on the incoming velocity. -/
theorem nudge_per_body_amended :
    (∀ s : Gravity, nudge s = { s with nudge_mode := true }) ∧
    (∀ s : Gravity, ((simulate s).nudge_mode, (simulate s).nudge_step) =
      nudgeTick^[s.body_count] (s.nudge_mode, s.nudge_step)) ∧
    (∀ k : ℕ, k < 21 → (nudgeTick^[k] (true, 0)).1 = true) ∧
    (nudgeTick^[21] (true, 0) = (false, 1)) ∧
    (∀ (h : ℝ) (oldA : ℕ → ℝ × ℝ) (s : Gravity) (i : ℕ) (w z : ℝ),
      s.nudge_mode = true →
      (velStep h oldA (withVel s i w z) i).bodies i =
      (velStep h oldA s i).bodies i) := by
  refine ⟨fun s => rfl, fun s => simulate_nudgeBook s, by decide, by decide,
    fun h oldA s i w z hm => ?_⟩
  simp [velStep, withVel, hm, randNat, Function.update_idem, Function.update_same]

/-- Witness for the amended C4: three ticks leave a fresh nudge armed, one
step on the demo state follows the tick bookkeeping, and the velocity
override at a concrete armed state ignores the incoming velocity. -/
theorem nudge_per_body_amended_witness :
    ((3 : ℕ) < 21 ∧ (nudgeTick^[3] (true, 0)).1 = true) ∧
    ((simulate demoState).nudge_mode, (simulate demoState).nudge_step) =
      nudgeTick^[demoState.body_count] (demoState.nudge_mode, demoState.nudge_step) ∧
    ({ demoState with nudge_mode := true }.nudge_mode = true ∧
      (velStep 1 (fun _ => (0, 0))
          (withVel { demoState with nudge_mode := true } 0 3 4) 0).bodies 0 =
      (velStep 1 (fun _ => (0, 0)) { demoState with nudge_mode := true } 0).bodies 0) :=
  ⟨⟨by norm_num, nudge_per_body_amended.2.2.1 3 (by norm_num)⟩,
   nudge_per_body_amended.2.1 demoState,
   rfl,
   nudge_per_body_amended.2.2.2.2 1 (fun _ => (0, 0))
     { demoState with nudge_mode := true } 0 3 4 rfl⟩

/-- Counterexample to C10 as stated: the claim infers that a subsequent
`reset()` restores the mass last written by `setBody` (here 1), discarding
the `setBodyMass` change (here 2).  But `reset` never copies the mass field:
after `setBodyMass(0, 2)` and `reset()`, the live mass is still 2, not 1. -/
theorem setBodyMass_reset_cex :
    ((reset (setBodyMass cexState 0 2)).bodies 0).mass = 2 ∧
    (cexState.initBodies 0).mass = 1 ∧ ((2 : ℝ) ≠ 1) := by
  refine ⟨?_, ?_, by norm_num⟩
  · rw [reset_bodies_mass]
    rw [setBodyMass_in cexState (by norm_num) (by norm_num)]
    dsimp only
    rw [Function.update_same]
  · rw [cexState_init0]

/-- C10 amended: for a valid index and mass, `setBodyMass` changes only the
mass field of the live body at that slot (its position, velocity and
acceleration, all other live bodies and the whole `initBodies` array are
unchanged); however `reset()` does not restore masses — it copies only
position, velocity and acceleration, so the `setBodyMass` value persists
across a reset. -/
theorem setBodyMass_frame_amended :
    (∀ (s : Gravity) (i : ℕ) (m : ℝ), i ≤ 9 → 0.1 ≤ m → m ≤ 30 →
      setBodyMass s i m = { s with
        bodies := Function.update s.bodies i ({ s.bodies i with mass := m }) }) ∧
    (∀ (s : Gravity) (j : ℕ), ((reset s).bodies j).mass = (s.bodies j).mass) ∧
    (∀ s : Gravity, (reset s).initBodies = s.initBodies) :=
  ⟨fun s i m h1 h2 h3 => setBodyMass_in s h1 (by push_neg; exact ⟨h2, h3⟩),
   reset_bodies_mass, reset_initBodies⟩

/-- Witness for the amended C10 on the demo state at slot 0 with mass 5. -/
theorem setBodyMass_frame_amended_witness :
    ((0 : ℕ) ≤ 9 ∧ (0.1 : ℝ) ≤ 5 ∧ (5 : ℝ) ≤ 30) ∧
    setBodyMass demoState 0 5 = { demoState with
      bodies := Function.update demoState.bodies 0
        ({ demoState.bodies 0 with mass := 5 }) } :=
  ⟨⟨by norm_num, by norm_num, by norm_num⟩,
   setBodyMass_frame_amended.1 demoState 0 5 (by norm_num) (by norm_num)
     (by norm_num)⟩
